import Mathlib

/-!
# GJP Neon Runner: the simulation core of `src/game.js`

A shallow embedding of the simulation part of `src/game.js` (classes `Pool` and
`RunnerGame`).  JavaScript numbers are modelled by rationals, that is, in exact
arithmetic.  `Math.random()` is a stream `Nat → ℚ` read at a position that is
threaded through every function that draws; `Math.sin` and `Math.PI` are taken
as given (structure `JsMath`).  Canvas drawing, the DOM overlays, the HUD text,
the sound cues and the `localStorage` write change no field of the simulation
state and are left out.
-/

namespace NeonRunner

/-! ## Constants (game.js lines 2-6) -/

def WIDTH : ℚ := 960
def HEIGHT : ℚ := 540
def GROUND_Y : ℚ := 450
def FIXED_STEP : ℚ := 1 / 60
def MAX_DT : ℚ := 1 / 10

/-! ## Data model -/

/-- The value of `this.state`. -/
inductive Phase where
  | start
  | running
  | paused
  | gameover
  deriving DecidableEq

/-- The value of an obstacle's `type` field. -/
inductive ObstacleType where
  | block
  | ground
  | hanging
  deriving DecidableEq

/-- What `intersects` reads of its arguments: `x`, `y`, `width`, `height`. -/
structure Box where
  x : ℚ
  y : ℚ
  width : ℚ
  height : ℚ
  deriving DecidableEq

/-- The object `this.player` (game.js lines 110-121). -/
structure Player where
  x : ℚ
  y : ℚ
  width : ℚ
  height : ℚ
  defaultHeight : ℚ
  slideHeight : ℚ
  vy : ℚ
  jumping : Bool
  sliding : Bool
  slideTimer : ℚ
  deriving DecidableEq

/-- One slot of the obstacle pool (game.js line 160). -/
structure Obstacle where
  active : Bool
  x : ℚ
  y : ℚ
  width : ℚ
  height : ℚ
  type : ObstacleType
  deriving DecidableEq

/-- One slot of the token pool (game.js line 164). -/
structure Token where
  active : Bool
  x : ℚ
  y : ℚ
  radius : ℚ
  bob : ℚ
  deriving DecidableEq

/-- One entry of `this.bgLayers`; `color`, `bars`, `heightMin` and `heightMax`
are read by the renderer only and are left out. -/
structure BgLayer where
  speed : ℚ
  offset : ℚ
  deriving DecidableEq

/-- The object `this.sign` (game.js lines 151-157). -/
structure Sign where
  x : ℚ
  y : ℚ
  width : ℚ
  height : ℚ
  speedFactor : ℚ
  deriving DecidableEq

/-- The object `this.fpsCounter`. -/
structure FpsCounter where
  elapsed : ℚ
  frames : ℚ
  deriving DecidableEq

/-- What `Pool` uses of its entries: the `active` flag, read and written. -/
class PoolItem (α : Type) where
  active : α → Bool
  setActive : Bool → α → α

instance : PoolItem Obstacle where
  active := Obstacle.active
  setActive := fun b o => { o with active := b }

instance : PoolItem Token where
  active := Token.active
  setActive := fun b t => { t with active := b }

/-- The class `Pool` (game.js lines 13-33): the array `items`.  The field
`create` is read by the constructor only. -/
structure Pool (α : Type) where
  items : List α
  deriving DecidableEq

/-- The fields of a `RunnerGame` that the simulation reads or writes. -/
structure RunnerGame where
  player : Player
  gravity : ℚ
  jumpVelocity : ℚ
  speed : ℚ
  baseSpeed : ℚ
  maxSpeed : ℚ
  distance : ℚ
  score : ℚ
  tokens : ℚ
  highScore : ℚ
  state : Phase
  lastFrame : ℚ
  accumulator : ℚ
  fps : ℚ
  fpsCounter : FpsCounter
  spawnTimer : ℚ
  tokenTimer : ℚ
  spawnInterval : ℚ
  bgLayers : List BgLayer
  sign : Sign
  obstacles : Pool Obstacle
  tokensPool : Pool Token
  deriving DecidableEq

/-- The box of the player as `intersects` reads it. -/
def Player.box (p : Player) : Box := ⟨p.x, p.y, p.width, p.height⟩

/-- The box of an obstacle as `intersects` reads it. -/
def Obstacle.box (o : Obstacle) : Box := ⟨o.x, o.y, o.width, o.height⟩

/-! ## Pool (game.js lines 13-33) -/

/-- `new Pool(create, size)`: `size` entries, each the value of `create()`. -/
def Pool.construct {α : Type} (create : α) (size : Nat) : Pool α :=
  ⟨List.replicate size create⟩

/-- `Pool.acquire()`: `items.find(entry => !entry.active)`, `null` when there is
none.  The entry is returned as its index in `items`; the pool is returned with
it, as the method leaves it. -/
def Pool.acquire {α : Type} [PoolItem α] (p : Pool α) : Option Nat × Pool α :=
  (p.items.findIdx? (fun entry => !PoolItem.active entry), p)

/-- `Pool.activeItems()`. -/
def Pool.activeItems {α : Type} [PoolItem α] (p : Pool α) : List α :=
  p.items.filter (fun entry => PoolItem.active entry)

/-- `Pool.reset()`: every item gets `active = false`. -/
def Pool.reset {α : Type} [PoolItem α] (p : Pool α) : Pool α :=
  ⟨p.items.map (fun item => PoolItem.setActive false item)⟩

/-! ## RunnerGame -/

/-- `intersects(a, b)` (game.js lines 344-346). -/
def intersects (a b : Box) : Bool :=
  decide (a.x < b.x + b.width) && decide (a.x + a.width > b.x) &&
    decide (a.y < b.y + b.height) && decide (a.y + a.height > b.y)

/-- What the simulation takes from the JavaScript runtime: the successive
results of `Math.random()`, the function `Math.sin` and the number `Math.PI`. -/
structure JsMath where
  random : Nat → ℚ
  sin : ℚ → ℚ
  PI : ℚ

/-- The JavaScript remainder `a % b`: the result has the sign of `a`. -/
def jsRem (a b : ℚ) : ℚ :=
  a - b * (if 0 ≤ a / b then ((⌊a / b⌋ : ℤ) : ℚ) else ((⌈a / b⌉ : ℤ) : ℚ))

/-- The state the constructor leaves (game.js lines 94-171); `hs` is the number
read from `localStorage`. -/
def construct (hs : ℚ) : RunnerGame :=
  { player :=
      { x := 140, y := GROUND_Y - 70, width := 48, height := 70, defaultHeight := 70,
        slideHeight := 40, vy := 0, jumping := false, sliding := false, slideTimer := 0 }
    gravity := 2400
    jumpVelocity := -900
    speed := 380
    baseSpeed := 380
    maxSpeed := 860
    distance := 0
    score := 0
    tokens := 0
    highScore := hs
    state := Phase.start
    lastFrame := 0
    accumulator := 0
    fps := 0
    fpsCounter := { elapsed := 0, frames := 0 }
    spawnTimer := 0
    tokenTimer := 3
    spawnInterval := 135 / 100
    bgLayers := [⟨35, 0⟩, ⟨80, 0⟩, ⟨140, 0⟩]
    sign := { x := WIDTH + 400, y := 120, width := 180, height := 90, speedFactor := 48 / 100 }
    obstacles := Pool.construct ⟨false, 0, 0, 40, 40, ObstacleType.block⟩ 28
    tokensPool := Pool.construct ⟨false, 0, 0, 14, 0⟩ 20 }

/-- `restart()` (game.js lines 245-266). -/
def restart (g : RunnerGame) : RunnerGame :=
  { g with
    distance := 0
    score := 0
    tokens := 0
    speed := g.baseSpeed
    spawnTimer := 0
    tokenTimer := 25 / 10
    spawnInterval := 135 / 100
    player :=
      { g.player with
        y := GROUND_Y - g.player.defaultHeight
        height := g.player.defaultHeight
        vy := 0
        jumping := false
        sliding := false
        slideTimer := 0 }
    obstacles := g.obstacles.reset
    tokensPool := g.tokensPool.reset
    state := Phase.running }

/-- `start()` (game.js lines 236-243). -/
def start (g : RunnerGame) : RunnerGame :=
  if g.state = Phase.running then g
  else { restart g with state := Phase.running }

/-- `togglePause(force = null)` (game.js lines 268-273); `none` is the call
without an argument. -/
def togglePause (force : Option Bool) (g : RunnerGame) : RunnerGame :=
  if g.state = Phase.start ∨ g.state = Phase.gameover then g
  else
    let shouldPause : Bool :=
      match force with
      | none => decide (g.state = Phase.running)
      | some f => !f
    { g with state := if shouldPause then Phase.paused else Phase.running }

/-- `gameOver()` (game.js lines 275-284). -/
def gameOver (g : RunnerGame) : RunnerGame :=
  { g with state := Phase.gameover, highScore := max g.highScore g.score }

/-- `jump()` (game.js lines 295-303). -/
def jump (g : RunnerGame) : RunnerGame :=
  if g.state ≠ Phase.running then g
  else if g.player.jumping then g
  else
    { g with
      player :=
        { g.player with
          vy := g.jumpVelocity
          jumping := true
          sliding := false
          height := g.player.defaultHeight } }

/-- `slide()` (game.js lines 305-312). -/
def slide (g : RunnerGame) : RunnerGame :=
  if g.state ≠ Phase.running then g
  else if g.player.jumping then g
  else
    { g with
      player :=
        { g.player with
          sliding := true
          slideTimer := 1 / 2
          height := g.player.slideHeight
          y := GROUND_Y - g.player.slideHeight } }

/-- `spawnObstacle()` (game.js lines 314-332), reading `Math.random()` from
position `k` on; the result carries the next position. -/
def spawnObstacle (M : JsMath) (g : RunnerGame) (k : Nat) : RunnerGame × Nat :=
  match g.obstacles.acquire.1 with
  | none => (g, k)
  | some i =>
    let tallChance := M.random k
    let width := 36 + M.random (k + 1) * 34
    if tallChance > 72 / 100 then
      let height := 90 + M.random (k + 2) * 55
      let obstacle : Obstacle :=
        ⟨true, WIDTH + 40, GROUND_Y - height - 30, width, height, ObstacleType.hanging⟩
      ({ g with obstacles := ⟨g.obstacles.items.set i obstacle⟩ }, k + 3)
    else
      let height := 40 + M.random (k + 2) * 72
      let obstacle : Obstacle :=
        ⟨true, WIDTH + 40, GROUND_Y - height, width, height, ObstacleType.ground⟩
      ({ g with obstacles := ⟨g.obstacles.items.set i obstacle⟩ }, k + 3)

/-- `spawnToken()` (game.js lines 334-342). -/
def spawnToken (M : JsMath) (g : RunnerGame) (k : Nat) : RunnerGame × Nat :=
  match g.tokensPool.acquire.1 with
  | none => (g, k)
  | some i =>
    let token : Token :=
      ⟨true, WIDTH + 40, GROUND_Y - 130 - M.random k * 160, 13, M.random (k + 1) * M.PI * 2⟩
    ({ g with tokensPool := ⟨g.tokensPool.items.set i token⟩ }, k + 2)

/-! ### `update(dt)` (game.js lines 348-428), block by block -/

/-- Lines 349-351: the speed ramp, the distance and the score. -/
def advanceScore (dt : ℚ) (g : RunnerGame) : RunnerGame :=
  let speed := min g.maxSpeed (g.speed + 6 * dt)
  let distance := g.distance + speed * dt
  { g with
    speed := speed
    distance := distance
    score := ((⌊distance / 8⌋ : ℤ) : ℚ) + g.tokens * 75 }

/-- Lines 353-358: the spawn interval, the spawn timer and the obstacle spawn. -/
def obstacleSpawner (M : JsMath) (dt : ℚ) (g : RunnerGame) (k : Nat) : RunnerGame × Nat :=
  let spawnInterval := max (55 / 100) (g.spawnInterval - 8 / 1000 * dt)
  let spawnTimer := g.spawnTimer - dt
  if spawnTimer ≤ 0 then
    spawnObstacle M
      { g with
        spawnInterval := spawnInterval
        spawnTimer := spawnInterval * (86 / 100 + M.random k * (45 / 100)) }
      (k + 1)
  else ({ g with spawnInterval := spawnInterval, spawnTimer := spawnTimer }, k)

/-- Lines 360-364: the token timer and the token spawn. -/
def tokenSpawner (M : JsMath) (dt : ℚ) (g : RunnerGame) (k : Nat) : RunnerGame × Nat :=
  let tokenTimer := g.tokenTimer - dt
  if tokenTimer ≤ 0 then
    let g1 := { g with tokenTimer := 24 / 10 + M.random k * (33 / 10) }
    if M.random (k + 1) > 35 / 100 then spawnToken M g1 (k + 2) else (g1, k + 2)
  else ({ g with tokenTimer := tokenTimer }, k)

/-- Lines 366-373: gravity, the vertical move and the ground clamp. -/
def integratePlayer (gravity dt : ℚ) (p : Player) : Player :=
  let vy := p.vy + gravity * dt
  let y := p.y + vy * dt
  if y ≥ GROUND_Y - p.height then
    { p with y := GROUND_Y - p.height, vy := 0, jumping := false }
  else { p with y := y, vy := vy }

/-- Lines 375-382: the slide countdown. -/
def slideCountdown (dt : ℚ) (p : Player) : Player :=
  if p.sliding then
    let slideTimer := p.slideTimer - dt
    if slideTimer ≤ 0 then
      { p with
        slideTimer := slideTimer
        sliding := false
        height := p.defaultHeight
        y := GROUND_Y - p.defaultHeight }
    else { p with slideTimer := slideTimer }
  else p

/-- Lines 366-382: the player's kinematics of one tick. -/
def playerKinematics (dt : ℚ) (g : RunnerGame) : RunnerGame :=
  { g with player := slideCountdown dt (integratePlayer g.gravity dt g.player) }

/-- Lines 384-386: the parallax offsets. -/
def scrollBackground (dt : ℚ) (g : RunnerGame) : RunnerGame :=
  { g with
    bgLayers := g.bgLayers.map (fun layer =>
      { layer with
        offset := jsRem (layer.offset + layer.speed * dt + g.speed * dt * (7 / 100)) WIDTH }) }

/-- Lines 388-391: the sign scrolls and re-enters on the right. -/
def scrollSign (M : JsMath) (dt : ℚ) (g : RunnerGame) (k : Nat) : RunnerGame × Nat :=
  let x := g.sign.x - g.speed * g.sign.speedFactor * dt
  if x + g.sign.width < -120 then
    ({ g with sign := { g.sign with x := WIDTH + 360 + M.random k * 300 } }, k + 1)
  else ({ g with sign := { g.sign with x := x } }, k)

/-- Lines 393-403: the callback of `this.obstacles.activeItems().forEach`, run
over `items` in index order.  A callback writes its own obstacle only, so an
item is in the list `activeItems()` exactly when it is active when reached.
The game `g` carries `speed`, `player`, `score`, `highScore` and `state`; its
`obstacles` field is written back by `moveObstacles`. -/
def obstacleLoop (dt : ℚ) : List Obstacle → RunnerGame → List Obstacle × RunnerGame
  | [], g => ([], g)
  | obstacle :: rest, g =>
    if obstacle.active then
      let moved := { obstacle with x := obstacle.x - g.speed * dt }
      if moved.x + moved.width < -40 then
        let r := obstacleLoop dt rest g
        ({ moved with active := false } :: r.1, r.2)
      else if intersects g.player.box moved.box then
        let r := obstacleLoop dt rest (gameOver g)
        (moved :: r.1, r.2)
      else
        let r := obstacleLoop dt rest g
        (moved :: r.1, r.2)
    else
      let r := obstacleLoop dt rest g
      (obstacle :: r.1, r.2)

/-- Lines 393-403 on the whole game. -/
def moveObstacles (dt : ℚ) (g : RunnerGame) : RunnerGame :=
  let r := obstacleLoop dt g.obstacles.items g
  { r.2 with obstacles := ⟨r.1⟩ }

/-- Lines 413-418: the hitbox of a token. -/
def tokenHitbox (M : JsMath) (token : Token) : Box :=
  { x := token.x - token.radius
    y := token.y + M.sin token.bob * 6 - token.radius
    width := token.radius * 2
    height := token.radius * 2 }

/-- Lines 405-425: the callback of `this.tokensPool.activeItems().forEach`, run
over `items` in index order; `g` carries `speed`, `player` and `tokens`. -/
def tokenLoop (M : JsMath) (dt : ℚ) : List Token → RunnerGame → List Token × RunnerGame
  | [], g => ([], g)
  | token :: rest, g =>
    if token.active then
      let moved := { token with x := token.x - g.speed * dt, bob := token.bob + dt * 4 }
      if moved.x + moved.radius < -30 then
        let r := tokenLoop M dt rest g
        ({ moved with active := false } :: r.1, r.2)
      else if intersects g.player.box (tokenHitbox M moved) then
        let r := tokenLoop M dt rest { g with tokens := g.tokens + 1 }
        ({ moved with active := false } :: r.1, r.2)
      else
        let r := tokenLoop M dt rest g
        (moved :: r.1, r.2)
    else
      let r := tokenLoop M dt rest g
      (token :: r.1, r.2)

/-- Lines 405-425 on the whole game. -/
def moveTokens (M : JsMath) (dt : ℚ) (g : RunnerGame) : RunnerGame :=
  let r := tokenLoop M dt g.tokensPool.items g
  { r.2 with tokensPool := ⟨r.1⟩ }

/-- Lines 349-391 of `update(dt)`: everything before the two entity loops. -/
def updateHead (M : JsMath) (dt : ℚ) (g : RunnerGame) (k : Nat) : RunnerGame × Nat :=
  let g1 := advanceScore dt g
  let r2 := obstacleSpawner M dt g1 k
  let r3 := tokenSpawner M dt r2.1 r2.2
  let g4 := playerKinematics dt r3.1
  let g5 := scrollBackground dt g4
  scrollSign M dt g5 r3.2

/-- `update(dt)` (game.js lines 348-428), reading `Math.random()` from position
`k` on; the result carries the next position. -/
def update (M : JsMath) (dt : ℚ) (g : RunnerGame) (k : Nat) : RunnerGame × Nat :=
  let r := updateHead M dt g k
  (moveTokens M dt (moveObstacles dt r.1), r.2)

/-- The `while` of `loop` (game.js lines 556-559) with at most `fuel` rounds. -/
def drain (M : JsMath) : Nat → RunnerGame → Nat → RunnerGame × Nat
  | 0, g, k => (g, k)
  | fuel + 1, g, k =>
    if g.accumulator ≥ FIXED_STEP then
      let r := update M FIXED_STEP g k
      drain M fuel { r.1 with accumulator := r.1.accumulator - FIXED_STEP } r.2
    else (g, k)

/-- `loop(timestamp)` (game.js lines 542-564) up to the call of `render`.  The
`while` runs `⌊accumulator / FIXED_STEP⌋` rounds, which is the fuel given. -/
def loop (M : JsMath) (timestamp : ℚ) (g : RunnerGame) (k : Nat) : RunnerGame × Nat :=
  let elapsed := (timestamp - g.lastFrame) / 1000
  let dt := min MAX_DT (if elapsed = 0 then FIXED_STEP else elapsed)
  let counted : FpsCounter := ⟨g.fpsCounter.elapsed + dt, g.fpsCounter.frames + 1⟩
  let g1 :=
    if counted.elapsed ≥ 1 / 4 then
      { g with lastFrame := timestamp, fps := counted.frames / counted.elapsed,
               fpsCounter := ⟨0, 0⟩ }
    else { g with lastFrame := timestamp, fpsCounter := counted }
  if g1.state = Phase.running then
    let g2 := { g1 with accumulator := g1.accumulator + dt }
    drain M (⌊g2.accumulator / FIXED_STEP⌋).toNat g2 k
  else (g1, k)

/-- The states the game can be in: the constructor's, and what `start`,
`restart`, `togglePause`, `jump`, `slide` and `update(dt)` with `dt ≥ 0` make of
one, whatever `Math.random()` returns. -/
inductive Reachable : RunnerGame → Prop where
  | construct (hs : ℚ) : Reachable (construct hs)
  | start {g : RunnerGame} : Reachable g → Reachable (start g)
  | restart {g : RunnerGame} : Reachable g → Reachable (restart g)
  | togglePause {g : RunnerGame} (force : Option Bool) :
      Reachable g → Reachable (togglePause force g)
  | jump {g : RunnerGame} : Reachable g → Reachable (jump g)
  | slide {g : RunnerGame} : Reachable g → Reachable (slide g)
  | update {g : RunnerGame} (M : JsMath) (dt : ℚ) (k : Nat) :
      Reachable g → 0 ≤ dt → Reachable (update M dt g k).1

/-- The states a sequence of calls of `spawnObstacle`, `spawnToken`,
`update(dt)` and `restart` (and of `start`, `togglePause`, `jump` and `slide`)
makes of the constructor's state, whatever `dt` is and whatever `Math.random()`
returns. -/
inductive PoolReachable : RunnerGame → Prop where
  | construct (hs : ℚ) : PoolReachable (construct hs)
  | spawnObstacle {g : RunnerGame} (M : JsMath) (k : Nat) :
      PoolReachable g → PoolReachable (spawnObstacle M g k).1
  | spawnToken {g : RunnerGame} (M : JsMath) (k : Nat) :
      PoolReachable g → PoolReachable (spawnToken M g k).1
  | update {g : RunnerGame} (M : JsMath) (dt : ℚ) (k : Nat) :
      PoolReachable g → PoolReachable (update M dt g k).1
  | restart {g : RunnerGame} : PoolReachable g → PoolReachable (restart g)
  | start {g : RunnerGame} : PoolReachable g → PoolReachable (start g)
  | togglePause {g : RunnerGame} (force : Option Bool) :
      PoolReachable g → PoolReachable (togglePause force g)
  | jump {g : RunnerGame} : PoolReachable g → PoolReachable (jump g)
  | slide {g : RunnerGame} : PoolReachable g → PoolReachable (slide g)

/-! ## What one tick does to an entity, in the words of the claims -/

/-- An obstacle after the move of one tick: `x` less `speed * dt`. -/
def movedObstacle (speed dt : ℚ) (o : Obstacle) : Obstacle :=
  { o with x := o.x - speed * dt }

/-- The moved obstacle is past the left margin, where it is deactivated. -/
def obstacleGone (speed dt : ℚ) (o : Obstacle) : Bool :=
  decide ((movedObstacle speed dt o).x + o.width < -40)

/-- The obstacle is active, stays on screen after its move, and its box then
intersects the player's box. -/
def obstacleHits (dt : ℚ) (g : RunnerGame) (o : Obstacle) : Bool :=
  o.active && !obstacleGone g.speed dt o &&
    intersects g.player.box (movedObstacle g.speed dt o).box

/-- What the obstacle loop leaves in the slot of `o`. -/
def obstacleAfter (speed dt : ℚ) (o : Obstacle) : Obstacle :=
  if o.active then
    if obstacleGone speed dt o then { movedObstacle speed dt o with active := false }
    else movedObstacle speed dt o
  else o

/-- A token after the move and the phase advance of one tick. -/
def movedToken (speed dt : ℚ) (t : Token) : Token :=
  { t with x := t.x - speed * dt, bob := t.bob + dt * 4 }

/-- The moved token is past the left margin, where it is deactivated. -/
def tokenGone (speed dt : ℚ) (t : Token) : Bool :=
  decide ((movedToken speed dt t).x + t.radius < -30)

/-- The token is active, stays on screen after its move, and its hitbox then
intersects the player's box: the tokens the loop collects. -/
def tokenCollected (M : JsMath) (dt : ℚ) (g : RunnerGame) (t : Token) : Bool :=
  t.active && !tokenGone g.speed dt t &&
    intersects g.player.box (tokenHitbox M (movedToken g.speed dt t))

/-- What the token loop leaves in the slot of `t`. -/
def tokenAfter (M : JsMath) (dt : ℚ) (g : RunnerGame) (t : Token) : Token :=
  if t.active then
    if tokenGone g.speed dt t then { movedToken g.speed dt t with active := false }
    else if intersects g.player.box (tokenHitbox M (movedToken g.speed dt t)) then
      { movedToken g.speed dt t with active := false }
    else movedToken g.speed dt t
  else t

/-! ## Runs of steps and counted calls -/

/-- The number of calls of `this.gameOver()`, each of which plays the hit cue
and writes the high score, that the obstacle loop (game.js lines 393-403)
makes: the loop of `obstacleLoop`, counting the calls at line 401. -/
def obstacleLoopCalls (dt : ℚ) : List Obstacle → RunnerGame → Nat
  | [], _ => 0
  | obstacle :: rest, g =>
    if obstacle.active then
      let moved : Obstacle := { obstacle with x := obstacle.x - g.speed * dt }
      if moved.x + moved.width < (-40 : ℚ) then obstacleLoopCalls dt rest g
      else if intersects g.player.box moved.box then
        obstacleLoopCalls dt rest (gameOver g) + 1
      else obstacleLoopCalls dt rest g
    else obstacleLoopCalls dt rest g

/-- The number of calls of `this.gameOver()` that one `update(dt)` makes. -/
def gameOverCalls (M : JsMath) (dt : ℚ) (g : RunnerGame) (k : Nat) : Nat :=
  obstacleLoopCalls dt (updateHead M dt g k).1.obstacles.items (updateHead M dt g k).1

/-- The `while` body of `loop` (game.js lines 557-558) run `n` times: `n` fixed
steps, each followed by the subtraction of `FIXED_STEP` from the accumulator. -/
def fixedSteps (M : JsMath) : Nat → RunnerGame → Nat → RunnerGame × Nat
  | 0, g, k => (g, k)
  | n + 1, g, k =>
    let r := update M FIXED_STEP g k
    fixedSteps M n { r.1 with accumulator := r.1.accumulator - FIXED_STEP } r.2

/-- The call `update(dt)` made `n` times in a row, with no other call between. -/
def ticks (M : JsMath) (dt : ℚ) : Nat → RunnerGame → Nat → RunnerGame × Nat
  | 0, g, k => (g, k)
  | n + 1, g, k =>
    let r := ticks M dt n g k
    update M dt r.1 r.2

/-! ## Example states -/

/-- A runtime for the examples: every draw of `Math.random()` is 1/2, and
`sin` is the constant 0, within the range [-1, 1] of `Math.sin`.  It is used
where the result is the same for every `sin` within that range. -/
def exampleMath : JsMath :=
  { random := fun _ => 1 / 2, sin := fun _ => 0, PI := 355 / 113 }

/-- A running game in which the obstacle of slot 0 stands 2 px right of the
player (whose box spans 140 to 188), so that the next tick moves it into the
player; the spawn timer has 1 s left. -/
def hitState : RunnerGame :=
  { restart (construct 500) with
    spawnTimer := 1
    obstacles :=
      ⟨⟨true, 190, 400, 40, 50, ObstacleType.ground⟩ ::
        List.replicate 27 ⟨false, 0, 0, 40, 40, ObstacleType.block⟩⟩ }

/-- The game `hitState` as `loop(40)` has it when its `while` starts: 40 ms
have passed since the last frame, so `dt` is 0.04, which is counted in
`fpsCounter` and added to the accumulator. -/
def hitFrame : RunnerGame :=
  { hitState with lastFrame := 40, fpsCounter := ⟨1 / 25, 1⟩, accumulator := 1 / 25 }

/-- A running game in which the player is in mid-jump and the token of slot 0
is 4 px right of the player's box, at the height of the player; the next tick
moves it into the player.  The token timer has 2.5 s left. -/
def tokenState : RunnerGame :=
  { restart (construct 0) with
    spawnTimer := 1
    player := { (restart (construct 0)).player with y := 300, vy := -100, jumping := true }
    tokensPool := ⟨⟨true, 205, 320, 13, 0⟩ :: List.replicate 19 ⟨false, 0, 0, 14, 0⟩⟩ }

/-- The game `hitState` with a second obstacle, in slot 1, that the next tick
also moves into the player. -/
def doubleHitState : RunnerGame :=
  { restart (construct 500) with
    spawnTimer := 1
    obstacles :=
      ⟨⟨true, 190, 400, 40, 50, ObstacleType.ground⟩ ::
        ⟨true, 192, 390, 36, 60, ObstacleType.ground⟩ ::
        List.replicate 26 ⟨false, 0, 0, 40, 40, ObstacleType.block⟩⟩ }

/-! ## Lemmas on the blocks of `update` -/

theorem gameOver_gameOver (g : RunnerGame) : gameOver (gameOver g) = gameOver g := by
  simp [gameOver]

theorem obstacleHits_gameOver (dt : ℚ) (g : RunnerGame) :
    obstacleHits dt (gameOver g) = obstacleHits dt g := rfl

/-- One round of the obstacle loop. -/
theorem obstacleLoop_cons (dt : ℚ) (o : Obstacle) (rest : List Obstacle) (g : RunnerGame) :
    obstacleLoop dt (o :: rest) g =
      (obstacleAfter g.speed dt o ::
          (obstacleLoop dt rest (if obstacleHits dt g o then gameOver g else g)).1,
        (obstacleLoop dt rest (if obstacleHits dt g o then gameOver g else g)).2) := by
  obtain ⟨a, x, y, w, h, t⟩ := o
  cases a
  · simp [obstacleLoop, obstacleAfter, obstacleHits]
  · by_cases hg : x - g.speed * dt + w < -40
    · simp [obstacleLoop, obstacleAfter, obstacleHits, obstacleGone, movedObstacle, hg]
    · by_cases hi : intersects g.player.box ⟨x - g.speed * dt, y, w, h⟩ = true
      · simp [obstacleLoop, obstacleAfter, obstacleHits, obstacleGone, movedObstacle,
          Obstacle.box, hg, hi]
      · simp [obstacleLoop, obstacleAfter, obstacleHits, obstacleGone, movedObstacle,
          Obstacle.box, hg, hi]

/-- The game the obstacle loop returns: `gameOver` of the game it got when some
obstacle hits, the game it got otherwise. -/
theorem obstacleLoop_game (dt : ℚ) (l : List Obstacle) (g : RunnerGame) :
    (obstacleLoop dt l g).2 = if l.any (obstacleHits dt g) then gameOver g else g := by
  induction l generalizing g with
  | nil => simp [obstacleLoop]
  | cons o rest ih =>
    rw [obstacleLoop_cons, List.any_cons]
    by_cases ho : obstacleHits dt g o = true
    · simp [ho, ih, obstacleHits_gameOver, gameOver_gameOver]
    · simp [ho, ih]

/-- The slots the obstacle loop returns. -/
theorem obstacleLoop_items (dt : ℚ) (l : List Obstacle) (g : RunnerGame) :
    (obstacleLoop dt l g).1 = l.map (obstacleAfter g.speed dt) := by
  induction l generalizing g with
  | nil => simp [obstacleLoop]
  | cons o rest ih =>
    have hs : (gameOver g).speed = g.speed := rfl
    rw [obstacleLoop_cons, List.map_cons]
    by_cases ho : obstacleHits dt g o = true
    · simp [ho, ih, hs]
    · simp [ho, ih]

/-- One round of the token loop. -/
theorem tokenLoop_cons (M : JsMath) (dt : ℚ) (t : Token) (rest : List Token)
    (g : RunnerGame) :
    tokenLoop M dt (t :: rest) g =
      (tokenAfter M dt g t ::
          (tokenLoop M dt rest
            (if tokenCollected M dt g t then { g with tokens := g.tokens + 1 } else g)).1,
        (tokenLoop M dt rest
            (if tokenCollected M dt g t then { g with tokens := g.tokens + 1 } else g)).2) := by
  obtain ⟨a, x, y, r, b⟩ := t
  cases a
  · simp [tokenLoop, tokenAfter, tokenCollected]
  · by_cases hg : x - g.speed * dt + r < -30
    · simp [tokenLoop, tokenAfter, tokenCollected, tokenGone, movedToken, hg]
    · by_cases hi : intersects g.player.box
          (tokenHitbox M ⟨true, x - g.speed * dt, y, r, b + dt * 4⟩) = true
      · simp [tokenLoop, tokenAfter, tokenCollected, tokenGone, movedToken, hg, hi]
      · simp [tokenLoop, tokenAfter, tokenCollected, tokenGone, movedToken, hg, hi]

theorem tokenCollected_tokens (M : JsMath) (dt : ℚ) (g : RunnerGame) (q : ℚ) :
    tokenCollected M dt { g with tokens := q } = tokenCollected M dt g := rfl

theorem tokenAfter_tokens (M : JsMath) (dt : ℚ) (g : RunnerGame) (q : ℚ) :
    tokenAfter M dt { g with tokens := q } = tokenAfter M dt g := rfl

/-- The game the token loop returns: the token count has grown by the number
of tokens collected. -/
theorem tokenLoop_game (M : JsMath) (dt : ℚ) (l : List Token) (g : RunnerGame) :
    (tokenLoop M dt l g).2 =
      { g with tokens := g.tokens + ((l.countP (tokenCollected M dt g) : ℕ) : ℚ) } := by
  induction l generalizing g with
  | nil => simp [tokenLoop]
  | cons t rest ih =>
    rw [tokenLoop_cons, List.countP_cons]
    by_cases ht : tokenCollected M dt g t = true
    · simp [ht, ih, tokenCollected_tokens]
      ring
    · simp [ht, ih]

/-- The slots the token loop returns. -/
theorem tokenLoop_items (M : JsMath) (dt : ℚ) (l : List Token) (g : RunnerGame) :
    (tokenLoop M dt l g).1 = l.map (tokenAfter M dt g) := by
  induction l generalizing g with
  | nil => simp [tokenLoop]
  | cons t rest ih =>
    rw [tokenLoop_cons, List.map_cons]
    by_cases ht : tokenCollected M dt g t = true
    · simp [ht, ih, tokenAfter_tokens]
    · simp [ht, ih]

/-- `spawnObstacle` writes the obstacle pool only. -/
theorem spawnObstacle_eq (M : JsMath) (g : RunnerGame) (k : Nat) :
    ∃ ob, (spawnObstacle M g k).1 = { g with obstacles := ob } := by
  unfold spawnObstacle
  split
  · exact ⟨_, rfl⟩
  · dsimp only
    split <;> exact ⟨_, rfl⟩

/-- `spawnToken` writes the token pool only. -/
theorem spawnToken_eq (M : JsMath) (g : RunnerGame) (k : Nat) :
    ∃ tp, (spawnToken M g k).1 = { g with tokensPool := tp } := by
  unfold spawnToken
  split <;> exact ⟨_, rfl⟩

/-- The spawner block writes the interval, the timer and the obstacle pool. -/
theorem obstacleSpawner_eq (M : JsMath) (dt : ℚ) (g : RunnerGame) (k : Nat) :
    ∃ st ob, (obstacleSpawner M dt g k).1 =
      { g with
        spawnInterval := max (55 / 100) (g.spawnInterval - 8 / 1000 * dt)
        spawnTimer := st
        obstacles := ob } := by
  unfold obstacleSpawner
  dsimp only
  split
  · obtain ⟨ob, h⟩ := spawnObstacle_eq M
      { g with
        spawnInterval := max (55 / 100) (g.spawnInterval - 8 / 1000 * dt)
        spawnTimer := max (55 / 100) (g.spawnInterval - 8 / 1000 * dt) *
          (86 / 100 + M.random k * (45 / 100)) } (k + 1)
    exact ⟨_, ob, h⟩
  · exact ⟨_, _, rfl⟩

/-- The token block writes the token timer and the token pool. -/
theorem tokenSpawner_eq (M : JsMath) (dt : ℚ) (g : RunnerGame) (k : Nat) :
    ∃ tt tp, (tokenSpawner M dt g k).1 = { g with tokenTimer := tt, tokensPool := tp } := by
  unfold tokenSpawner
  dsimp only
  split
  · split
    · obtain ⟨tp, h⟩ := spawnToken_eq M
        { g with tokenTimer := 24 / 10 + M.random k * (33 / 10) } (k + 2)
      exact ⟨_, tp, h⟩
    · exact ⟨_, _, rfl⟩
  · exact ⟨_, _, rfl⟩

/-- The sign block writes the sign only. -/
theorem scrollSign_eq (M : JsMath) (dt : ℚ) (g : RunnerGame) (k : Nat) :
    ∃ sg, (scrollSign M dt g k).1 = { g with sign := sg } := by
  unfold scrollSign
  dsimp only
  split <;> exact ⟨_, rfl⟩

/-- What lines 349-391 of `update` leave: the new speed, distance, score, spawn
interval and player are as given; the timers, the background, the sign and the
two pools have some value; every other field is untouched. -/
theorem updateHead_eq (M : JsMath) (dt : ℚ) (g : RunnerGame) (k : Nat) :
    ∃ st tt bg sg ob tp, (updateHead M dt g k).1 =
      { g with
        speed := min g.maxSpeed (g.speed + 6 * dt)
        distance := g.distance + min g.maxSpeed (g.speed + 6 * dt) * dt
        score := ((⌊(g.distance + min g.maxSpeed (g.speed + 6 * dt) * dt) / 8⌋ : ℤ) : ℚ)
          + g.tokens * 75
        spawnInterval := max (55 / 100) (g.spawnInterval - 8 / 1000 * dt)
        spawnTimer := st
        tokenTimer := tt
        player := slideCountdown dt (integratePlayer g.gravity dt g.player)
        bgLayers := bg
        sign := sg
        obstacles := ob
        tokensPool := tp } := by
  unfold updateHead
  dsimp only
  obtain ⟨st, ob, h2⟩ := obstacleSpawner_eq M dt (advanceScore dt g) k
  generalize obstacleSpawner M dt (advanceScore dt g) k = r2 at h2
  obtain ⟨g2, k2⟩ := r2
  obtain ⟨tt, tp, h3⟩ := tokenSpawner_eq M dt g2 k2
  generalize tokenSpawner M dt g2 k2 = r3 at h3
  obtain ⟨g3, k3⟩ := r3
  obtain ⟨sg, h6⟩ := scrollSign_eq M dt (scrollBackground dt (playerKinematics dt g3)) k3
  dsimp only at h2 h3 h6 ⊢
  subst h2
  subst h3
  rw [h6]
  exact ⟨st, tt, _, sg, ob, tp, rfl⟩

/-- What `update` leaves, given what its first part leaves. -/
theorem update_eq (M : JsMath) (dt : ℚ) (g : RunnerGame) (k : Nat) :
    (update M dt g k).1 =
      { (if (updateHead M dt g k).1.obstacles.items.any
              (obstacleHits dt (updateHead M dt g k).1)
          then gameOver (updateHead M dt g k).1 else (updateHead M dt g k).1) with
        obstacles :=
          ⟨(updateHead M dt g k).1.obstacles.items.map
            (obstacleAfter (updateHead M dt g k).1.speed dt)⟩
        tokensPool :=
          ⟨(updateHead M dt g k).1.tokensPool.items.map
            (tokenAfter M dt (updateHead M dt g k).1)⟩
        tokens := (updateHead M dt g k).1.tokens +
          (((updateHead M dt g k).1.tokensPool.items.countP
            (tokenCollected M dt (updateHead M dt g k).1) : ℕ) : ℚ) } := by
  unfold update
  dsimp only
  generalize (updateHead M dt g k).1 = h
  unfold moveTokens moveObstacles
  dsimp only
  rw [tokenLoop_game, tokenLoop_items, obstacleLoop_game, obstacleLoop_items]
  by_cases hit : h.obstacles.items.any (obstacleHits dt h) = true
  · simp only [hit, if_true]
    rfl
  · simp only [hit]
    rfl

/-- The speed after `update`. -/
theorem update_speed (M : JsMath) (dt : ℚ) (g : RunnerGame) (k : Nat) :
    (update M dt g k).1.speed = min g.maxSpeed (g.speed + 6 * dt) := by
  obtain ⟨st, tt, bg, sg, ob, tp, h⟩ := updateHead_eq M dt g k
  rw [update_eq, h]
  split_ifs <;> rfl

/-- The spawn interval after `update`. -/
theorem update_spawnInterval (M : JsMath) (dt : ℚ) (g : RunnerGame) (k : Nat) :
    (update M dt g k).1.spawnInterval = max (55 / 100) (g.spawnInterval - 8 / 1000 * dt) := by
  obtain ⟨st, tt, bg, sg, ob, tp, h⟩ := updateHead_eq M dt g k
  rw [update_eq, h]
  split_ifs <;> rfl

/-- The player after `update`: the loops leave the player as the kinematics
block made it. -/
theorem update_player (M : JsMath) (dt : ℚ) (g : RunnerGame) (k : Nat) :
    (update M dt g k).1.player = slideCountdown dt (integratePlayer g.gravity dt g.player) := by
  obtain ⟨st, tt, bg, sg, ob, tp, h⟩ := updateHead_eq M dt g k
  rw [update_eq, h]
  split_ifs <;> rfl

/-- The fields `update` never writes. -/
theorem update_constants (M : JsMath) (dt : ℚ) (g : RunnerGame) (k : Nat) :
    (update M dt g k).1.baseSpeed = g.baseSpeed ∧ (update M dt g k).1.maxSpeed = g.maxSpeed ∧
    (update M dt g k).1.gravity = g.gravity ∧
    (update M dt g k).1.jumpVelocity = g.jumpVelocity := by
  obtain ⟨st, tt, bg, sg, ob, tp, h⟩ := updateHead_eq M dt g k
  rw [update_eq, h]
  split_ifs <;> exact ⟨rfl, rfl, rfl, rfl⟩

/-- The kinematics of one tick write none of the player's constants, keep the
sliding flag apart from ending a slide, and never set the jumping flag. -/
theorem slideCountdown_integratePlayer (gravity dt : ℚ) (p : Player) :
    (slideCountdown dt (integratePlayer gravity dt p)).x = p.x ∧
    (slideCountdown dt (integratePlayer gravity dt p)).width = p.width ∧
    (slideCountdown dt (integratePlayer gravity dt p)).defaultHeight = p.defaultHeight ∧
    (slideCountdown dt (integratePlayer gravity dt p)).slideHeight = p.slideHeight ∧
    ((slideCountdown dt (integratePlayer gravity dt p)).jumping = true → p.jumping = true) ∧
    ((slideCountdown dt (integratePlayer gravity dt p)).sliding = true → p.sliding = true) ∧
    (((slideCountdown dt (integratePlayer gravity dt p)).sliding = p.sliding ∧
        (slideCountdown dt (integratePlayer gravity dt p)).height = p.height) ∨
      ((slideCountdown dt (integratePlayer gravity dt p)).sliding = false ∧
        (slideCountdown dt (integratePlayer gravity dt p)).height = p.defaultHeight)) := by
  unfold slideCountdown integratePlayer
  dsimp only
  split_ifs <;> simp_all

/-- The numbers no operation writes keep the constructor's values. -/
theorem reachable_constants {g : RunnerGame} (h : Reachable g) :
    g.baseSpeed = 380 ∧ g.maxSpeed = 860 ∧ g.player.defaultHeight = 70 ∧
    g.player.slideHeight = 40 ∧ g.player.x = 140 ∧ g.player.width = 48 ∧
    g.gravity = 2400 ∧ g.jumpVelocity = -900 := by
  induction h with
  | construct hs => simp [construct]
  | start _ ih =>
    unfold start
    split_ifs
    · exact ih
    · simpa [restart] using ih
  | restart _ ih => simpa [restart] using ih
  | togglePause force _ ih =>
    unfold togglePause
    split_ifs
    · exact ih
    · simpa using ih
  | jump _ ih =>
    unfold jump
    split_ifs
    · exact ih
    · exact ih
    · simpa using ih
  | slide _ ih =>
    unfold slide
    split_ifs
    · exact ih
    · exact ih
    · simpa using ih
  | @update g M dt k _ _ ih =>
    obtain ⟨h1, h2, h3, h4⟩ := update_constants M dt g k
    obtain ⟨p1, p2, p3, p4, -⟩ := slideCountdown_integratePlayer g.gravity dt g.player
    rw [h1, h2, h3, h4, update_player, p1, p2, p3, p4]
    exact ih

/-- In every reachable state the speed lies between 380 and 860. -/
theorem reachable_speed {g : RunnerGame} (h : Reachable g) :
    380 ≤ g.speed ∧ g.speed ≤ 860 := by
  induction h with
  | construct hs => norm_num [construct]
  | @start g hg ih =>
    unfold start
    split_ifs
    · exact ih
    · have hb := (reachable_constants hg).1
      simp only [restart]
      rw [hb]
      norm_num
  | @restart g hg ih =>
    have hb := (reachable_constants hg).1
    simp only [restart]
    rw [hb]
    norm_num
  | togglePause force _ ih =>
    unfold togglePause
    split_ifs
    · exact ih
    · simpa using ih
  | jump _ ih =>
    unfold jump
    split_ifs
    · exact ih
    · exact ih
    · simpa using ih
  | slide _ ih =>
    unfold slide
    split_ifs
    · exact ih
    · exact ih
    · simpa using ih
  | @update g M dt k hg hdt ih =>
    have hm := (reachable_constants hg).2.1
    rw [update_speed, hm]
    refine ⟨le_min (by norm_num) (by linarith [ih.1]), min_le_left _ _⟩

/-- In every reachable state the spawn interval lies between 0.55 and 1.35. -/
theorem reachable_spawnInterval {g : RunnerGame} (h : Reachable g) :
    55 / 100 ≤ g.spawnInterval ∧ g.spawnInterval ≤ 135 / 100 := by
  induction h with
  | construct hs => norm_num [construct]
  | start _ ih =>
    unfold start
    split_ifs
    · exact ih
    · norm_num [restart]
  | restart _ ih => norm_num [restart]
  | togglePause force _ ih =>
    unfold togglePause
    split_ifs
    · exact ih
    · simpa using ih
  | jump _ ih =>
    unfold jump
    split_ifs
    · exact ih
    · exact ih
    · simpa using ih
  | slide _ ih =>
    unfold slide
    split_ifs
    · exact ih
    · exact ih
    · simpa using ih
  | @update g M dt k hg hdt ih =>
    rw [update_spawnInterval]
    refine ⟨le_max_left _ _, max_le (by norm_num) (by linarith [ih.2])⟩

/-- Lines 349-391 of `update` leave the speed and the player as `update` does,
and write neither the phase, the high score nor the token count. -/
theorem updateHead_fields (M : JsMath) (dt : ℚ) (g : RunnerGame) (k : Nat) :
    (updateHead M dt g k).1.speed = (update M dt g k).1.speed ∧
    (updateHead M dt g k).1.player = (update M dt g k).1.player ∧
    (updateHead M dt g k).1.score = (update M dt g k).1.score ∧
    (updateHead M dt g k).1.distance = (update M dt g k).1.distance ∧
    (updateHead M dt g k).1.state = g.state ∧
    (updateHead M dt g k).1.highScore = g.highScore ∧
    (updateHead M dt g k).1.tokens = g.tokens := by
  obtain ⟨st, tt, bg, sg, ob, tp, h⟩ := updateHead_eq M dt g k
  rw [update_eq, h]
  split_ifs <;> exact ⟨rfl, rfl, rfl, rfl, rfl, rfl, rfl⟩

/-- The distance and the score after `update`: the score is computed from the
new distance and the token count the tick started with. -/
theorem update_distance_score (M : JsMath) (dt : ℚ) (g : RunnerGame) (k : Nat) :
    (update M dt g k).1.distance = g.distance + min g.maxSpeed (g.speed + 6 * dt) * dt ∧
    (update M dt g k).1.score =
      ((⌊(update M dt g k).1.distance / 8⌋ : ℤ) : ℚ) + g.tokens * 75 := by
  obtain ⟨st, tt, bg, sg, ob, tp, h⟩ := updateHead_eq M dt g k
  rw [update_eq, h]
  split_ifs <;> exact ⟨rfl, rfl⟩

/-- The phase and the high score after `update`. -/
theorem update_state_highScore (M : JsMath) (dt : ℚ) (g : RunnerGame) (k : Nat) :
    (update M dt g k).1.state =
      (if (updateHead M dt g k).1.obstacles.items.any (obstacleHits dt (updateHead M dt g k).1)
        then Phase.gameover else g.state) ∧
    (update M dt g k).1.highScore =
      (if (updateHead M dt g k).1.obstacles.items.any (obstacleHits dt (updateHead M dt g k).1)
        then max g.highScore (update M dt g k).1.score else g.highScore) := by
  obtain ⟨h1, h2, h3, h4, h5, h6, h7⟩ := updateHead_fields M dt g k
  rw [← h3, ← h5, ← h6]
  rw [update_eq]
  split_ifs <;> exact ⟨rfl, rfl⟩

/-- The token count and the token pool after `update`. -/
theorem update_tokens (M : JsMath) (dt : ℚ) (g : RunnerGame) (k : Nat) :
    (update M dt g k).1.tokens = g.tokens +
      (((updateHead M dt g k).1.tokensPool.items.countP
        (tokenCollected M dt (updateHead M dt g k).1) : ℕ) : ℚ) ∧
    (update M dt g k).1.tokensPool.items =
      (updateHead M dt g k).1.tokensPool.items.map (tokenAfter M dt (updateHead M dt g k).1) := by
  obtain ⟨h1, h2, h3, h4, h5, h6, h7⟩ := updateHead_fields M dt g k
  rw [← h7]
  rw [update_eq]
  split_ifs <;> exact ⟨rfl, rfl⟩

/-- Neither timer, frame counter nor accumulator is written by `update`. -/
theorem update_frame_fields (M : JsMath) (dt : ℚ) (g : RunnerGame) (k : Nat) :
    (update M dt g k).1.accumulator = g.accumulator ∧
    (update M dt g k).1.lastFrame = g.lastFrame ∧
    (update M dt g k).1.fps = g.fps ∧
    (update M dt g k).1.fpsCounter = g.fpsCounter := by
  obtain ⟨st, tt, bg, sg, ob, tp, h⟩ := updateHead_eq M dt g k
  rw [update_eq, h]
  split_ifs <;> exact ⟨rfl, rfl, rfl, rfl⟩

/-- While the spawn timer has not run out, no obstacle is spawned. -/
theorem updateHead_obstacles (M : JsMath) (dt : ℚ) (g : RunnerGame) (k : Nat)
    (h : 0 < g.spawnTimer - dt) : (updateHead M dt g k).1.obstacles = g.obstacles := by
  have h1 : (obstacleSpawner M dt (advanceScore dt g) k).1.obstacles = g.obstacles := by
    unfold obstacleSpawner advanceScore
    dsimp only
    rw [if_neg (not_le.mpr h)]
  unfold updateHead
  dsimp only
  obtain ⟨tt, tp, h3⟩ := tokenSpawner_eq M dt (obstacleSpawner M dt (advanceScore dt g) k).1
    (obstacleSpawner M dt (advanceScore dt g) k).2
  generalize tokenSpawner M dt (obstacleSpawner M dt (advanceScore dt g) k).1
    (obstacleSpawner M dt (advanceScore dt g) k).2 = r3 at h3
  obtain ⟨g3, k3⟩ := r3
  obtain ⟨sg, h6⟩ := scrollSign_eq M dt (scrollBackground dt (playerKinematics dt g3)) k3
  dsimp only at h3 ⊢
  rw [h6]
  subst h3
  exact h1

/-- While the token timer has not run out, no token is spawned. -/
theorem updateHead_tokensPool (M : JsMath) (dt : ℚ) (g : RunnerGame) (k : Nat)
    (h : 0 < g.tokenTimer - dt) : (updateHead M dt g k).1.tokensPool = g.tokensPool := by
  unfold updateHead
  dsimp only
  obtain ⟨st, ob, h2⟩ := obstacleSpawner_eq M dt (advanceScore dt g) k
  generalize obstacleSpawner M dt (advanceScore dt g) k = r2 at h2
  obtain ⟨g2, k2⟩ := r2
  dsimp only at h2 ⊢
  have h3 : (tokenSpawner M dt g2 k2).1.tokensPool = g.tokensPool := by
    subst h2
    unfold tokenSpawner advanceScore
    dsimp only
    rw [if_neg (not_le.mpr h)]
  generalize tokenSpawner M dt g2 k2 = r3 at h3
  obtain ⟨g3, k3⟩ := r3
  obtain ⟨sg, h6⟩ := scrollSign_eq M dt (scrollBackground dt (playerKinematics dt g3)) k3
  dsimp only at h3 ⊢
  rw [h6]
  exact h3

/-- The speed and the player's box after one fixed step from `hitState`. -/
theorem hitState_step (M : JsMath) (k : Nat) :
    (update M (1 / 60) hitState k).1.speed = 3801 / 10 ∧
    (update M (1 / 60) hitState k).1.player.box = ⟨140, 380, 48, 70⟩ ∧
    (updateHead M (1 / 60) hitState k).1.obstacles = hitState.obstacles := by
  refine ⟨?_, ?_, ?_⟩
  · rw [update_speed]
    norm_num [hitState, restart, construct]
  · rw [update_player]
    norm_num [hitState, restart, construct, integratePlayer, slideCountdown, Player.box,
      GROUND_Y]
  · apply updateHead_obstacles
    norm_num [hitState]

/-- The token loop writes neither the phase nor the high score. -/
theorem moveTokens_state (M : JsMath) (dt : ℚ) (g : RunnerGame) :
    (moveTokens M dt g).state = g.state ∧ (moveTokens M dt g).highScore = g.highScore := by
  unfold moveTokens
  dsimp only
  rw [tokenLoop_game]
  exact ⟨rfl, rfl⟩

/-- With the player's left edge at or right of -30, a token past the left margin
does not reach the player, so the tokens collected are the active ones whose
hitbox intersects the player's box. -/
theorem tokenCollected_iff (M : JsMath) (dt : ℚ) (g : RunnerGame) (t : Token)
    (hx : -30 ≤ g.player.x) :
    tokenCollected M dt g t = true ↔
      (t.active = true ∧
        intersects g.player.box
          (⟨t.x - g.speed * dt - t.radius, t.y + M.sin (t.bob + dt * 4) * 6 - t.radius,
            t.radius * 2, t.radius * 2⟩ : Box) = true) := by
  simp only [tokenCollected, tokenGone, movedToken, tokenHitbox, Bool.and_eq_true,
    Bool.not_eq_true', decide_eq_false_iff_not, not_lt]
  constructor
  · rintro ⟨⟨ha, -⟩, hi⟩
    exact ⟨ha, hi⟩
  · rintro ⟨ha, hi⟩
    refine ⟨⟨ha, ?_⟩, hi⟩
    simp only [intersects, Player.box, Bool.and_eq_true, decide_eq_true_eq] at hi
    linarith [hi.1.1.1]

/-- With the player's left edge at or right of -30, the token count after
`update` has grown by the number of active tokens whose hitbox intersects the
player's box. -/
theorem update_tokens_count (M : JsMath) (dt : ℚ) (g : RunnerGame) (k : Nat)
    (hx : -30 ≤ g.player.x) :
    (update M dt g k).1.tokens = g.tokens +
      (((updateHead M dt g k).1.tokensPool.items.countP (fun t =>
        t.active && intersects (update M dt g k).1.player.box
          (⟨t.x - (update M dt g k).1.speed * dt - t.radius,
            t.y + M.sin (t.bob + dt * 4) * 6 - t.radius, t.radius * 2, t.radius * 2⟩ : Box)
        ) : ℕ) : ℚ) := by
  obtain ⟨htok, -⟩ := update_tokens M dt g k
  obtain ⟨h1, h2, -⟩ := updateHead_fields M dt g k
  have hxh : -30 ≤ (updateHead M dt g k).1.player.x := by
    rw [h2, update_player, (slideCountdown_integratePlayer g.gravity dt g.player).1]
    exact hx
  have hcount : (updateHead M dt g k).1.tokensPool.items.countP
        (tokenCollected M dt (updateHead M dt g k).1) =
      (updateHead M dt g k).1.tokensPool.items.countP (fun t =>
        t.active && intersects (update M dt g k).1.player.box
          (⟨t.x - (update M dt g k).1.speed * dt - t.radius,
            t.y + M.sin (t.bob + dt * 4) * 6 - t.radius, t.radius * 2, t.radius * 2⟩ : Box)) := by
    apply List.countP_congr
    intro t _
    rw [tokenCollected_iff M dt _ t hxh, h1, h2]
    simp
  rw [hcount] at htok
  exact htok

/-- One fixed step from `tokenState`: no token is spawned, the speed becomes
380.1, the player rises to 299, and the hitbox of the token of slot 0
intersects the player's box whatever value within [-1, 1] `sin` takes. -/
theorem tokenState_step (M : JsMath) (hsin : ∀ x, -1 ≤ M.sin x ∧ M.sin x ≤ 1) (k : Nat) :
    (updateHead M (1 / 60) tokenState k).1.tokensPool = tokenState.tokensPool ∧
    (update M (1 / 60) tokenState k).1.speed = 3801 / 10 ∧
    (update M (1 / 60) tokenState k).1.player.box = ⟨140, 299, 48, 70⟩ ∧
    intersects ⟨140, 299, 48, 70⟩
      (⟨205 - 3801 / 10 * (1 / 60) - 13, 320 + M.sin (0 + 1 / 60 * 4) * 6 - 13, 13 * 2,
        13 * 2⟩ : Box) = true := by
  refine ⟨?_, ?_, ?_, ?_⟩
  · apply updateHead_tokensPool
    norm_num [tokenState, restart]
  · rw [update_speed]
    norm_num [tokenState, restart, construct]
  · rw [update_player]
    norm_num [tokenState, restart, construct, integratePlayer, slideCountdown, Player.box,
      GROUND_Y]
  · obtain ⟨hlo, hhi⟩ := hsin (0 + 1 / 60 * 4)
    simp only [intersects, Bool.and_eq_true, decide_eq_true_eq, gt_iff_lt]
    refine ⟨⟨⟨?_, ?_⟩, ?_⟩, ?_⟩ <;> norm_num <;> linarith

/-- The number of tokens collected in one fixed step from `tokenState`. -/
theorem tokenState_count (M : JsMath) (hsin : ∀ x, -1 ≤ M.sin x ∧ M.sin x ≤ 1) (k : Nat) :
    (updateHead M (1 / 60) tokenState k).1.tokensPool.items.countP (fun t =>
        t.active && intersects (update M (1 / 60) tokenState k).1.player.box
          (⟨t.x - (update M (1 / 60) tokenState k).1.speed * (1 / 60) - t.radius,
            t.y + M.sin (t.bob + 1 / 60 * 4) * 6 - t.radius, t.radius * 2, t.radius * 2⟩ : Box)
        ) = 1 := by
  obtain ⟨hp, hs, hb, hi⟩ := tokenState_step M hsin k
  rw [hp, hs, hb]
  simp only [tokenState, List.countP_cons, List.countP_replicate]
  simpa using hi

/-- One round of the `while` of `loop`, when the accumulator holds a full step. -/
theorem drain_succ (M : JsMath) (fuel : Nat) (g : RunnerGame) (k : Nat)
    (h : g.accumulator ≥ FIXED_STEP) :
    drain M (fuel + 1) g k =
      drain M fuel
        { (update M FIXED_STEP g k).1 with
          accumulator := (update M FIXED_STEP g k).1.accumulator - FIXED_STEP }
        (update M FIXED_STEP g k).2 := by
  rw [drain, if_pos h]

/-- The `while` of `loop` with no round left. -/
theorem drain_zero (M : JsMath) (g : RunnerGame) (k : Nat) : drain M 0 g k = (g, k) := by
  rw [drain]

/-- Two rounds of the `while` of `loop`. -/
theorem drain_two (M : JsMath) (g : RunnerGame) (k : Nat)
    (h : g.accumulator - FIXED_STEP ≥ FIXED_STEP) :
    ∃ g1 k1 g2 k2, update M FIXED_STEP g k = (g1, k1) ∧
      update M FIXED_STEP { g1 with accumulator := g1.accumulator - FIXED_STEP } k1 = (g2, k2) ∧
      drain M 2 g k = ({ g2 with accumulator := g2.accumulator - FIXED_STEP }, k2) := by
  have a1 : g.accumulator ≥ FIXED_STEP := by
    have h0 : (0 : ℚ) ≤ FIXED_STEP := by norm_num [FIXED_STEP]
    linarith
  have hacc := (update_frame_fields M FIXED_STEP g k).1
  have a2 : ({ (update M FIXED_STEP g k).1 with
      accumulator := (update M FIXED_STEP g k).1.accumulator - FIXED_STEP } :
        RunnerGame).accumulator ≥ FIXED_STEP := by
    dsimp only
    rw [hacc]
    exact h
  refine ⟨_, _, _, _, Prod.mk.eta.symm, Prod.mk.eta.symm, ?_⟩
  rw [drain_succ M 1 g k a1, drain_succ M 0 _ _ a2, drain_zero]

/-- A frame that starts in phase running, with a positive time since the last
frame of at most `MAX_DT` and no refresh of the frame rate: the time is added to
the accumulator and the `while` runs. -/
theorem loop_of_running (M : JsMath) (timestamp e : ℚ) (g : RunnerGame) (k : Nat)
    (hrun : g.state = Phase.running) (hel : (timestamp - g.lastFrame) / 1000 = e)
    (he0 : e ≠ 0) (hle : e ≤ MAX_DT) (hfc : ¬(g.fpsCounter.elapsed + e ≥ 1 / 4)) :
    loop M timestamp g k =
      drain M (⌊(g.accumulator + e) / FIXED_STEP⌋).toNat
        { g with
          lastFrame := timestamp
          fpsCounter := ⟨g.fpsCounter.elapsed + e, g.fpsCounter.frames + 1⟩
          accumulator := g.accumulator + e } k := by
  unfold loop
  simp only [hel, if_neg he0, min_eq_right hle, if_neg hfc, hrun, if_true]

/-- The frame `loop(40)` from `hitState` runs its `while` from `hitFrame` with
two rounds of fuel. -/
theorem loop_hitState (M : JsMath) (k : Nat) :
    loop M 40 hitState k = drain M 2 hitFrame k := by
  have hfloor : (⌊(hitState.accumulator + 1 / 25) / FIXED_STEP⌋ : ℤ).toNat = 2 := by
    have h : (⌊(hitState.accumulator + 1 / 25) / FIXED_STEP⌋ : ℤ) = 2 := by
      rw [Int.floor_eq_iff]
      norm_num [hitState, restart, construct, FIXED_STEP]
    rw [h]
    rfl
  rw [loop_of_running M 40 (1 / 25) hitState k rfl
    (by norm_num [hitState, restart, construct]) (by norm_num) (by norm_num [MAX_DT])
    (by norm_num [hitState, restart, construct]), hfloor]
  have h0 : hitState.accumulator + 1 / 25 = 1 / 25 := by
    norm_num [hitState, restart, construct]
  have h1 : hitState.fpsCounter.elapsed + 1 / 25 = 1 / 25 := by
    norm_num [hitState, restart, construct]
  have h2 : hitState.fpsCounter.frames + 1 = 1 := by
    norm_num [hitState, restart, construct]
  rw [h0, h1, h2]
  rfl

/-- The first fixed step from `hitFrame` ends the game; the second fixed step
of the same frame still advances the distance and the speed. -/
theorem hitFrame_steps (M : JsMath) (k : Nat) :
    (update M (1 / 60) hitFrame k).1.state = Phase.gameover ∧
    (update M (1 / 60) hitFrame k).1.distance = 3801 / 600 ∧
    (update M (1 / 60) hitFrame k).1.speed = 3801 / 10 ∧
    (drain M 2 hitFrame k).1.state = Phase.gameover ∧
    (drain M 2 hitFrame k).1.distance = 7603 / 600 ∧
    (drain M 2 hitFrame k).1.speed = 3802 / 10 := by
  have hF : FIXED_STEP = 1 / 60 := rfl
  have hs : (update M (1 / 60) hitFrame k).1.speed = 3801 / 10 := by
    rw [update_speed]
    norm_num [hitFrame, hitState, restart, construct]
  have hp : (update M (1 / 60) hitFrame k).1.player.box = ⟨140, 380, 48, 70⟩ := by
    rw [update_player]
    norm_num [hitFrame, hitState, restart, construct, integratePlayer, slideCountdown,
      Player.box, GROUND_Y]
  have ho : (updateHead M (1 / 60) hitFrame k).1.obstacles = hitFrame.obstacles := by
    apply updateHead_obstacles
    norm_num [hitFrame, hitState]
  have hany : (updateHead M (1 / 60) hitFrame k).1.obstacles.items.any
      (obstacleHits (1 / 60) (updateHead M (1 / 60) hitFrame k).1) = true := by
    obtain ⟨h1, h2, -⟩ := updateHead_fields M (1 / 60) hitFrame k
    rw [ho]
    have hitems : hitFrame.obstacles.items = ⟨true, 190, 400, 40, 50, ObstacleType.ground⟩ ::
        List.replicate 27 ⟨false, 0, 0, 40, 40, ObstacleType.block⟩ := rfl
    rw [hitems, List.any_cons]
    have hhit : obstacleHits (1 / 60) (updateHead M (1 / 60) hitFrame k).1
        ⟨true, 190, 400, 40, 50, ObstacleType.ground⟩ = true := by
      simp only [obstacleHits, obstacleGone, movedObstacle, Obstacle.box, h1, h2, hs, hp,
        intersects]
      norm_num
    rw [hhit]
    rfl
  have hst : (update M (1 / 60) hitFrame k).1.state = Phase.gameover := by
    rw [(update_state_highScore M (1 / 60) hitFrame k).1, if_pos hany]
  have hd : (update M (1 / 60) hitFrame k).1.distance = 3801 / 600 := by
    rw [(update_distance_score M (1 / 60) hitFrame k).1]
    norm_num [hitFrame, hitState, restart, construct]
  have hm : (update M (1 / 60) hitFrame k).1.maxSpeed = 860 := by
    rw [(update_constants M (1 / 60) hitFrame k).2.1]
    rfl
  have hacc : hitFrame.accumulator - FIXED_STEP ≥ FIXED_STEP := by
    rw [hF]
    norm_num [hitFrame]
  obtain ⟨g1, k1, g2, k2, e1, e2, e3⟩ := drain_two M hitFrame k hacc
  have hs0 := hs
  have hst0 := hst
  have hd0 := hd
  rw [← hF] at hs hst hd hm
  rw [e1] at hs hst hd hm
  dsimp only at hs hst hd hm
  have hst2 := (update_state_highScore M FIXED_STEP
    { g1 with accumulator := g1.accumulator - FIXED_STEP } k1).1
  have hd2 := (update_distance_score M FIXED_STEP
    { g1 with accumulator := g1.accumulator - FIXED_STEP } k1).1
  have hs2 := update_speed M FIXED_STEP { g1 with accumulator := g1.accumulator - FIXED_STEP } k1
  rw [e2] at hst2 hd2 hs2
  dsimp only at hst2 hd2 hs2
  rw [e3]
  dsimp only
  refine ⟨hst0, hd0, hs0, ?_, ?_, ?_⟩
  · rw [hst2]
    split_ifs
    · rfl
    · exact hst
  · rw [hd2, hd, hm, hs, hF]
    norm_num
  · rw [hs2, hm, hs, hF]
    norm_num

/-- What `spawnObstacle` does when `acquire` returns slot `i`: the slot gets a
new obstacle, three draws are used. -/
theorem spawnObstacle_of_acquire (M : JsMath) (g : RunnerGame) (k i : Nat)
    (hi : g.obstacles.acquire.1 = some i) :
    ∃ o : Obstacle,
      spawnObstacle M g k = ({ g with obstacles := ⟨g.obstacles.items.set i o⟩ }, k + 3) ∧
      o.active = true ∧ o.x = WIDTH + 40 ∧ o.width = 36 + M.random (k + 1) * 34 ∧
      (M.random k > 72 / 100 →
        o.type = ObstacleType.hanging ∧ o.height = 90 + M.random (k + 2) * 55 ∧
        o.y + o.height = GROUND_Y - 30) ∧
      (¬(M.random k > 72 / 100) →
        o.type = ObstacleType.ground ∧ o.height = 40 + M.random (k + 2) * 72 ∧
        o.y + o.height = GROUND_Y) := by
  unfold spawnObstacle
  rw [hi]
  dsimp only
  by_cases ht : M.random k > 72 / 100
  · rw [if_pos ht]
    refine ⟨_, rfl, rfl, rfl, rfl, fun _ => ⟨rfl, rfl, ?_⟩, fun hn => absurd ht hn⟩
    dsimp only
    ring
  · rw [if_neg ht]
    refine ⟨_, rfl, rfl, rfl, rfl, fun hp => absurd hp ht, fun _ => ⟨rfl, rfl, ?_⟩⟩
    dsimp only
    ring

/-- What `spawnObstacle` does when `acquire` returns `null`: nothing. -/
theorem spawnObstacle_of_full (M : JsMath) (g : RunnerGame) (k : Nat)
    (hi : g.obstacles.acquire.1 = none) : spawnObstacle M g k = (g, k) := by
  unfold spawnObstacle
  rw [hi]

/-- What `spawnToken` does when `acquire` returns slot `i`. -/
theorem spawnToken_of_acquire (M : JsMath) (g : RunnerGame) (k i : Nat)
    (hi : g.tokensPool.acquire.1 = some i) :
    ∃ t : Token,
      spawnToken M g k = ({ g with tokensPool := ⟨g.tokensPool.items.set i t⟩ }, k + 2) := by
  unfold spawnToken
  rw [hi]
  exact ⟨_, rfl⟩

/-- What `spawnToken` does when `acquire` returns `null`: nothing. -/
theorem spawnToken_of_full (M : JsMath) (g : RunnerGame) (k : Nat)
    (hi : g.tokensPool.acquire.1 = none) : spawnToken M g k = (g, k) := by
  unfold spawnToken
  rw [hi]

/-- The kinematics of one tick keep a player that is not jumping on the ground
with no vertical velocity, for a gravity and a `dt` that are not negative. -/
theorem kinematics_grounded (gravity dt : ℚ) (p : Player) (hg : 0 ≤ gravity) (hdt : 0 ≤ dt)
    (ih : p.jumping = false → p.vy = 0 ∧ p.y = GROUND_Y - p.height)
    (hj : (slideCountdown dt (integratePlayer gravity dt p)).jumping = false) :
    (slideCountdown dt (integratePlayer gravity dt p)).vy = 0 ∧
    (slideCountdown dt (integratePlayer gravity dt p)).y =
      GROUND_Y - (slideCountdown dt (integratePlayer gravity dt p)).height := by
  have hq : (integratePlayer gravity dt p).jumping = false →
      (integratePlayer gravity dt p).vy = 0 ∧
      (integratePlayer gravity dt p).y = GROUND_Y - (integratePlayer gravity dt p).height := by
    unfold integratePlayer
    dsimp only
    by_cases hc : p.y + (p.vy + gravity * dt) * dt ≥ GROUND_Y - p.height
    · rw [if_pos hc]
      intro _
      exact ⟨rfl, rfl⟩
    · rw [if_neg hc]
      intro hpj
      obtain ⟨hv, hy⟩ := ih hpj
      exfalso
      apply hc
      rw [hv, hy]
      have : 0 ≤ gravity * dt * dt := mul_nonneg (mul_nonneg hg hdt) hdt
      linarith
  generalize integratePlayer gravity dt p = q at hq hj ⊢
  unfold slideCountdown at hj ⊢
  dsimp only at hj ⊢
  split_ifs at hj ⊢
  · exact ⟨(hq hj).1, rfl⟩
  · exact hq hj
  · exact hq hj

/-- `spawnObstacle` keeps the number of slots of the obstacle pool and leaves
the token pool as it is. -/
theorem spawnObstacle_pools (M : JsMath) (g : RunnerGame) (k : Nat) :
    (spawnObstacle M g k).1.obstacles.items.length = g.obstacles.items.length ∧
    (spawnObstacle M g k).1.tokensPool = g.tokensPool := by
  cases hi : g.obstacles.acquire.1 with
  | none =>
    rw [spawnObstacle_of_full M g k hi]
    exact ⟨rfl, rfl⟩
  | some i =>
    obtain ⟨o, hsp, -⟩ := spawnObstacle_of_acquire M g k i hi
    rw [hsp]
    exact ⟨List.length_set _ _ _, rfl⟩

/-- `spawnToken` keeps the number of slots of the token pool and leaves the
obstacle pool as it is. -/
theorem spawnToken_pools (M : JsMath) (g : RunnerGame) (k : Nat) :
    (spawnToken M g k).1.tokensPool.items.length = g.tokensPool.items.length ∧
    (spawnToken M g k).1.obstacles = g.obstacles := by
  cases hi : g.tokensPool.acquire.1 with
  | none =>
    rw [spawnToken_of_full M g k hi]
    exact ⟨rfl, rfl⟩
  | some i =>
    obtain ⟨t, hsp⟩ := spawnToken_of_acquire M g k i hi
    rw [hsp]
    exact ⟨List.length_set _ _ _, rfl⟩

/-- Lines 349-391 of `update` keep the number of slots of both pools. -/
theorem updateHead_pools (M : JsMath) (dt : ℚ) (g : RunnerGame) (k : Nat) :
    (updateHead M dt g k).1.obstacles.items.length = g.obstacles.items.length ∧
    (updateHead M dt g k).1.tokensPool.items.length = g.tokensPool.items.length := by
  have h2 : (obstacleSpawner M dt (advanceScore dt g) k).1.obstacles.items.length
        = g.obstacles.items.length ∧
      (obstacleSpawner M dt (advanceScore dt g) k).1.tokensPool = g.tokensPool := by
    unfold obstacleSpawner
    dsimp only
    split
    · exact spawnObstacle_pools M _ _
    · exact ⟨rfl, rfl⟩
  unfold updateHead
  dsimp only
  generalize obstacleSpawner M dt (advanceScore dt g) k = r2 at h2 ⊢
  obtain ⟨g2, k2⟩ := r2
  dsimp only at h2 ⊢
  have h3 : (tokenSpawner M dt g2 k2).1.tokensPool.items.length = g2.tokensPool.items.length ∧
      (tokenSpawner M dt g2 k2).1.obstacles = g2.obstacles := by
    unfold tokenSpawner
    dsimp only
    split
    · split
      · exact spawnToken_pools M _ _
      · exact ⟨rfl, rfl⟩
    · exact ⟨rfl, rfl⟩
  generalize tokenSpawner M dt g2 k2 = r3 at h3 ⊢
  obtain ⟨g3, k3⟩ := r3
  dsimp only at h3 ⊢
  obtain ⟨sg, h6⟩ := scrollSign_eq M dt (scrollBackground dt (playerKinematics dt g3)) k3
  rw [h6]
  show g3.obstacles.items.length = _ ∧ g3.tokensPool.items.length = _
  rw [h3.1, h3.2, h2.1, h2.2]
  exact ⟨rfl, rfl⟩

/-- `update` keeps the number of slots of both pools. -/
theorem update_pools (M : JsMath) (dt : ℚ) (g : RunnerGame) (k : Nat) :
    (update M dt g k).1.obstacles.items.length = g.obstacles.items.length ∧
    (update M dt g k).1.tokensPool.items.length = g.tokensPool.items.length := by
  obtain ⟨h1, h2⟩ := updateHead_pools M dt g k
  rw [update_eq]
  dsimp only
  rw [List.length_map, List.length_map]
  exact ⟨h1, h2⟩

/-- One round of the obstacle loop, counting the calls of `gameOver`. -/
theorem obstacleLoopCalls_cons (dt : ℚ) (o : Obstacle) (rest : List Obstacle)
    (g : RunnerGame) :
    obstacleLoopCalls dt (o :: rest) g =
      obstacleLoopCalls dt rest (if obstacleHits dt g o then gameOver g else g) +
        (if obstacleHits dt g o then 1 else 0) := by
  obtain ⟨a, x, y, w, h, t⟩ := o
  cases a
  · simp [obstacleLoopCalls, obstacleHits]
  · by_cases hg : x - g.speed * dt + w < -40
    · simp [obstacleLoopCalls, obstacleHits, obstacleGone, movedObstacle, hg]
    · by_cases hi : intersects g.player.box ⟨x - g.speed * dt, y, w, h⟩ = true
      · simp [obstacleLoopCalls, obstacleHits, obstacleGone, movedObstacle, Obstacle.box,
          hg, hi]
      · simp [obstacleLoopCalls, obstacleHits, obstacleGone, movedObstacle, Obstacle.box,
          hg, hi]

/-- The obstacle loop calls `gameOver` once for every obstacle that hits. -/
theorem obstacleLoopCalls_eq (dt : ℚ) (l : List Obstacle) (g : RunnerGame) :
    obstacleLoopCalls dt l g = l.countP (obstacleHits dt g) := by
  induction l generalizing g with
  | nil => simp [obstacleLoopCalls]
  | cons o rest ih =>
    rw [obstacleLoopCalls_cons, List.countP_cons, ih]
    by_cases ho : obstacleHits dt g o = true
    · simp [ho, obstacleHits_gameOver]
    · simp [ho]

/-- One fixed step from `doubleHitState`: no obstacle is spawned, the speed
becomes 380.1 and the player stands. -/
theorem doubleHitState_step (M : JsMath) (k : Nat) :
    (updateHead M (1 / 60) doubleHitState k).1.speed = 3801 / 10 ∧
    (updateHead M (1 / 60) doubleHitState k).1.player.box = ⟨140, 380, 48, 70⟩ ∧
    (updateHead M (1 / 60) doubleHitState k).1.obstacles = doubleHitState.obstacles := by
  obtain ⟨h1, h2, -⟩ := updateHead_fields M (1 / 60) doubleHitState k
  refine ⟨?_, ?_, ?_⟩
  · rw [h1, update_speed]
    norm_num [doubleHitState, restart, construct]
  · rw [h2, update_player]
    norm_num [doubleHitState, restart, construct, integratePlayer, slideCountdown, Player.box,
      GROUND_Y]
  · apply updateHead_obstacles
    norm_num [doubleHitState]

/-- One fixed step from `doubleHitState` calls `gameOver` twice. -/
theorem doubleHitState_calls (M : JsMath) (k : Nat) :
    gameOverCalls M (1 / 60) doubleHitState k = 2 := by
  obtain ⟨hs, hp, ho⟩ := doubleHitState_step M k
  unfold gameOverCalls
  rw [obstacleLoopCalls_eq, ho]
  have hitems : doubleHitState.obstacles.items =
      ⟨true, 190, 400, 40, 50, ObstacleType.ground⟩ ::
        ⟨true, 192, 390, 36, 60, ObstacleType.ground⟩ ::
        List.replicate 26 ⟨false, 0, 0, 40, 40, ObstacleType.block⟩ := rfl
  have h0 : obstacleHits (1 / 60) (updateHead M (1 / 60) doubleHitState k).1
      ⟨true, 190, 400, 40, 50, ObstacleType.ground⟩ = true := by
    simp only [obstacleHits, obstacleGone, movedObstacle, Obstacle.box, hs, hp, intersects]
    norm_num
  have h1 : obstacleHits (1 / 60) (updateHead M (1 / 60) doubleHitState k).1
      ⟨true, 192, 390, 36, 60, ObstacleType.ground⟩ = true := by
    simp only [obstacleHits, obstacleGone, movedObstacle, Obstacle.box, hs, hp, intersects]
    norm_num
  have h2 : obstacleHits (1 / 60) (updateHead M (1 / 60) doubleHitState k).1
      ⟨false, 0, 0, 40, 40, ObstacleType.block⟩ = false := by
    simp [obstacleHits]
  rw [hitems, List.countP_cons, List.countP_cons, List.countP_replicate, h0, h1, h2]
  rfl

/-- With an accumulator below one step the `while` of `loop` does nothing. -/
theorem drain_stop (M : JsMath) (fuel : Nat) (g : RunnerGame) (k : Nat)
    (h : g.accumulator < FIXED_STEP) : drain M fuel g k = (g, k) := by
  cases fuel with
  | zero => rw [drain]
  | succ n => rw [drain, if_neg (not_le.mpr h)]

/-- With at least `n` steps in the accumulator, `n` rounds of fuel run `n`
fixed steps. -/
theorem drain_eq_fixedSteps (M : JsMath) (n : Nat) (g : RunnerGame) (k : Nat)
    (h : (n : ℚ) * FIXED_STEP ≤ g.accumulator) : drain M n g k = fixedSteps M n g k := by
  induction n generalizing g k with
  | zero => rw [drain, fixedSteps]
  | succ n ih =>
    have hF : (0 : ℚ) ≤ FIXED_STEP := by norm_num [FIXED_STEP]
    have hn : (0 : ℚ) ≤ (n : ℚ) * FIXED_STEP := mul_nonneg (Nat.cast_nonneg n) hF
    push_cast at h
    have h1 : g.accumulator ≥ FIXED_STEP := by linarith
    rw [drain_succ M n g k h1, fixedSteps]
    apply ih
    dsimp only
    rw [(update_frame_fields M FIXED_STEP g k).1]
    linarith

/-- The accumulator after `n` fixed steps. -/
theorem fixedSteps_accumulator (M : JsMath) (n : Nat) (g : RunnerGame) (k : Nat) :
    (fixedSteps M n g k).1.accumulator = g.accumulator - (n : ℚ) * FIXED_STEP := by
  induction n generalizing g k with
  | zero =>
    rw [fixedSteps]
    simp
  | succ n ih =>
    rw [fixedSteps, ih]
    dsimp only
    rw [(update_frame_fields M FIXED_STEP g k).1]
    push_cast
    ring

/-- Fuel beyond the number of steps the accumulator holds changes nothing. -/
theorem drain_add (M : JsMath) (n m : Nat) (g : RunnerGame) (k : Nat)
    (h : (n : ℚ) * FIXED_STEP ≤ g.accumulator)
    (hlt : g.accumulator - (n : ℚ) * FIXED_STEP < FIXED_STEP) :
    drain M (n + m) g k = drain M n g k := by
  induction n generalizing g k with
  | zero =>
    have hs : g.accumulator < FIXED_STEP := by simpa using hlt
    rw [drain_stop M _ g k hs, drain_stop M _ g k hs]
  | succ n ih =>
    have hF : (0 : ℚ) ≤ FIXED_STEP := by norm_num [FIXED_STEP]
    have hn : (0 : ℚ) ≤ (n : ℚ) * FIXED_STEP := mul_nonneg (Nat.cast_nonneg n) hF
    push_cast at h hlt
    have h1 : g.accumulator ≥ FIXED_STEP := by linarith
    rw [Nat.add_right_comm, drain_succ M (n + m) g k h1, drain_succ M n g k h1]
    apply ih
    · dsimp only
      rw [(update_frame_fields M FIXED_STEP g k).1]
      linarith
    · dsimp only
      rw [(update_frame_fields M FIXED_STEP g k).1]
      linarith

/-- The frame `loop(timestamp)`: the frame counters are written; in phase
running `dt` is added to the accumulator and the `while` runs, in every other
phase nothing else happens. -/
theorem loop_eq (M : JsMath) (timestamp : ℚ) (g : RunnerGame) (k : Nat) :
    ∃ (fps : ℚ) (fc : FpsCounter),
      (g.state = Phase.running →
        loop M timestamp g k =
          drain M
            (⌊(g.accumulator + min MAX_DT (if (timestamp - g.lastFrame) / 1000 = 0
              then FIXED_STEP else (timestamp - g.lastFrame) / 1000)) / FIXED_STEP⌋).toNat
            { g with
              lastFrame := timestamp
              fps := fps
              fpsCounter := fc
              accumulator := g.accumulator + min MAX_DT (if (timestamp - g.lastFrame) / 1000 = 0
                then FIXED_STEP else (timestamp - g.lastFrame) / 1000) } k) ∧
      (g.state ≠ Phase.running →
        loop M timestamp g k =
          ({ g with lastFrame := timestamp, fps := fps, fpsCounter := fc }, k)) := by
  by_cases hfc : g.fpsCounter.elapsed + min MAX_DT (if (timestamp - g.lastFrame) / 1000 = 0
      then FIXED_STEP else (timestamp - g.lastFrame) / 1000) ≥ 1 / 4
  · refine ⟨(g.fpsCounter.frames + 1) / (g.fpsCounter.elapsed + min MAX_DT
        (if (timestamp - g.lastFrame) / 1000 = 0 then FIXED_STEP
          else (timestamp - g.lastFrame) / 1000)), ⟨0, 0⟩, fun hrun => ?_, fun hrun => ?_⟩
    · unfold loop
      simp only [if_pos hfc, hrun, if_true]
    · unfold loop
      simp only [if_pos hfc, if_neg hrun]
  · refine ⟨g.fps, ⟨g.fpsCounter.elapsed + min MAX_DT
        (if (timestamp - g.lastFrame) / 1000 = 0 then FIXED_STEP
          else (timestamp - g.lastFrame) / 1000), g.fpsCounter.frames + 1⟩,
      fun hrun => ?_, fun hrun => ?_⟩
    · unfold loop
      simp only [if_neg hfc, hrun, if_true]
    · unfold loop
      simp only [if_neg hfc, if_neg hrun]

/-- One more tick is one more `update`. -/
theorem ticks_succ (M : JsMath) (dt : ℚ) (n : Nat) (g : RunnerGame) (k : Nat) :
    ticks M dt (n + 1) g k = update M dt (ticks M dt n g k).1 (ticks M dt n g k).2 := by
  rw [ticks]

/-- `update` never lowers the token count. -/
theorem update_tokens_mono (M : JsMath) (dt : ℚ) (g : RunnerGame) (k : Nat) :
    g.tokens ≤ (update M dt g k).1.tokens := by
  rw [(update_tokens M dt g k).1]
  have h : (0 : ℚ) ≤ (((updateHead M dt g k).1.tokensPool.items.countP
      (tokenCollected M dt (updateHead M dt g k).1) : ℕ) : ℚ) := Nat.cast_nonneg _
  linarith

/-- The speed, the distance and the token count over the ticks of a fresh run,
while the speed is below its cap. -/
theorem ticks_restart (M : JsMath) (g : RunnerGame) (k n : Nat)
    (hb : g.baseSpeed = 380) (hm : g.maxSpeed = 860) (hn : n ≤ 4800) :
    (ticks M (1 / 60) n (restart g) k).1.maxSpeed = 860 ∧
    (ticks M (1 / 60) n (restart g) k).1.speed = 380 + (n : ℚ) / 10 ∧
    (ticks M (1 / 60) n (restart g) k).1.distance =
      (380 * (n : ℚ) + (n : ℚ) * ((n : ℚ) + 1) / 20) / 60 ∧
    0 ≤ (ticks M (1 / 60) n (restart g) k).1.tokens := by
  induction n with
  | zero =>
    rw [ticks]
    refine ⟨hm, ?_, ?_, ?_⟩
    · show g.baseSpeed = _
      rw [hb]
      norm_num
    · show (0 : ℚ) = _
      norm_num
    · show (0 : ℚ) ≤ 0
      norm_num
  | succ n ih =>
    obtain ⟨i1, i2, i3, i4⟩ := ih (Nat.le_of_succ_le hn)
    have hq : ((n : ℚ) + 1) ≤ 4800 := by exact_mod_cast hn
    rw [ticks_succ]
    generalize ticks M (1 / 60) n (restart g) k = r at i1 i2 i3 i4 ⊢
    obtain ⟨gn, kn⟩ := r
    dsimp only at i1 i2 i3 i4 ⊢
    have hs : (update M (1 / 60) gn kn).1.speed = 380 + ((n : ℚ) + 1) / 10 := by
      rw [update_speed, i1, i2]
      rw [min_eq_right (by linarith)]
      ring
    refine ⟨?_, ?_, ?_, ?_⟩
    · rw [(update_constants M (1 / 60) gn kn).2.1]
      exact i1
    · rw [hs]
      push_cast
      ring
    · rw [(update_distance_score M (1 / 60) gn kn).1, i1, i2, i3]
      rw [min_eq_right (by linarith)]
      push_cast
      ring
    · exact le_trans i4 (update_tokens_mono M (1 / 60) gn kn)

/-- After at least one tick, the score is `floor(distance / 8)` plus 75 for
every token held before the last tick; so it is `floor(distance / 8)` when no
token is held after the last tick of a run in which the count was never
negative. -/
theorem ticks_score (M : JsMath) (dt : ℚ) (n : Nat) (g : RunnerGame) (k : Nat)
    (h0 : 0 ≤ (ticks M dt n g k).1.tokens)
    (hz : (ticks M dt (n + 1) g k).1.tokens = 0) :
    (ticks M dt (n + 1) g k).1.score =
      ((⌊(ticks M dt (n + 1) g k).1.distance / 8⌋ : ℤ) : ℚ) := by
  rw [ticks_succ] at hz ⊢
  generalize ticks M dt n g k = r at h0 hz ⊢
  obtain ⟨gn, kn⟩ := r
  dsimp only at h0 hz ⊢
  have hmono := update_tokens_mono M dt gn kn
  have hgn : gn.tokens = 0 := le_antisymm (by linarith) h0
  rw [(update_distance_score M dt gn kn).2, hgn]
  ring

/-! ## Theorems -/

/-- C5: `intersects` is symmetric, and it holds exactly when each box starts
strictly before the other ends on both axes (half-open intervals); the boxes
(0,0,10,10) and (10,0,10,10) do not intersect, (9,0,10,10) and (0,0,10,10) do. -/
theorem intersects_symmetric_half_open (a b : Box) :
    intersects a b = intersects b a ∧
    (intersects a b = true ↔
      a.x < b.x + b.width ∧ b.x < a.x + a.width ∧
      a.y < b.y + b.height ∧ b.y < a.y + a.height) ∧
    intersects ⟨0, 0, 10, 10⟩ ⟨10, 0, 10, 10⟩ = false ∧
    intersects ⟨9, 0, 10, 10⟩ ⟨0, 0, 10, 10⟩ = true := by
  have key : ∀ c d : Box, intersects c d = true ↔
      c.x < d.x + d.width ∧ d.x < c.x + c.width ∧
      c.y < d.y + d.height ∧ d.y < c.y + c.height := by
    intro c d
    simp only [intersects, Bool.and_eq_true, decide_eq_true_eq, gt_iff_lt]
    tauto
  refine ⟨?_, key a b, ?_, ?_⟩
  · rw [Bool.eq_iff_iff, key a b, key b a]
    tauto
  · rw [Bool.eq_false_iff]
    intro h
    have h1 := ((key _ _).1 h).2.1
    norm_num at h1
  · rw [key]
    norm_num

/-- C10: `acquire` changes no slot; it returns `null` exactly when every slot
is active; and the slot it returns is inactive and every slot of lower index is
active, so that it is the inactive slot of lowest index, which it does return
when some slot is inactive. -/
theorem acquire_first_inactive {α : Type} [PoolItem α] (p : Pool α) :
    p.acquire.2 = p ∧
    (p.acquire.1 = none ↔ ∀ entry ∈ p.items, PoolItem.active entry = true) ∧
    (∀ i, p.acquire.1 = some i ↔
      ∃ h : i < p.items.length, PoolItem.active (p.items.get ⟨i, h⟩) = false ∧
        ∀ j (hj : j < i), PoolItem.active (p.items.get ⟨j, Nat.lt_trans hj h⟩) = true) ∧
    ((∃ entry ∈ p.items, PoolItem.active entry = false) → ∃ i, p.acquire.1 = some i) := by
  refine ⟨rfl, ?_, ?_, ?_⟩
  · simp [Pool.acquire]
  · intro i
    simp [Pool.acquire, List.findIdx?_eq_some_iff_getElem]
  · rintro ⟨entry, hmem, hact⟩
    cases hfind : p.acquire.1 with
    | some i => exact ⟨i, rfl⟩
    | none =>
      have hall : ∀ e ∈ p.items, PoolItem.active e = true := by
        simpa [Pool.acquire] using hfind
      rw [hall entry hmem] at hact
      cases hact

/-- C6: `restart` applied twice gives the state `restart` gives once; that
state has distance, score, tokens and spawn timer 0, speed `baseSpeed` (380 in
every reachable state), spawn interval 1.35, every slot of both pools inactive,
the player standing on the ground at default height with no velocity and
neither flag set, phase running, and the high score it had. -/
theorem restart_idempotent (g : RunnerGame) :
    restart (restart g) = restart g ∧
    (restart g).distance = 0 ∧ (restart g).score = 0 ∧ (restart g).tokens = 0 ∧
    (restart g).speed = g.baseSpeed ∧ (Reachable g → (restart g).speed = 380) ∧
    (restart g).spawnTimer = 0 ∧ (restart g).spawnInterval = 135 / 100 ∧
    (∀ o ∈ (restart g).obstacles.items, o.active = false) ∧
    (∀ t ∈ (restart g).tokensPool.items, t.active = false) ∧
    (restart g).obstacles.items.length = g.obstacles.items.length ∧
    (restart g).tokensPool.items.length = g.tokensPool.items.length ∧
    (restart g).player.y = GROUND_Y - g.player.defaultHeight ∧
    (restart g).player.height = g.player.defaultHeight ∧
    (restart g).player.defaultHeight = g.player.defaultHeight ∧
    (restart g).player.vy = 0 ∧ (restart g).player.jumping = false ∧
    (restart g).player.sliding = false ∧ (restart g).state = Phase.running ∧
    (restart g).highScore = g.highScore := by
  refine ⟨?_, rfl, rfl, rfl, rfl, ?_, rfl, rfl, ?_, ?_, ?_, ?_, rfl, rfl, rfl, rfl, rfl,
    rfl, rfl, rfl⟩
  · simp [restart, Pool.reset, PoolItem.setActive]
  · intro h
    exact (reachable_constants h).1
  · intro o ho
    simp only [restart, Pool.reset, List.mem_map] at ho
    obtain ⟨o0, -, rfl⟩ := ho
    rfl
  · intro t ht
    simp only [restart, Pool.reset, List.mem_map] at ht
    obtain ⟨t0, -, rfl⟩ := ht
    rfl
  · simp [restart, Pool.reset]
  · simp [restart, Pool.reset]

/-- C6, at a state that can arise: the restart of a started game has speed 380. -/
theorem restart_idempotent_witness :
    Reachable (start (construct 0)) ∧ (restart (start (construct 0))).speed = 380 :=
  ⟨Reachable.start (Reachable.construct 0),
    (restart_idempotent (start (construct 0))).2.2.2.2.2.1
      (Reachable.start (Reachable.construct 0))⟩

/-- C7: in every reachable state the jumping and sliding flags are not both
set, and when the sliding flag is clear the player's height is `defaultHeight`,
which is 70. -/
theorem player_flags_invariant (g : RunnerGame) (h : Reachable g) :
    ¬(g.player.jumping = true ∧ g.player.sliding = true) ∧
    (g.player.sliding = false →
      g.player.height = g.player.defaultHeight ∧ g.player.height = 70) := by
  have hc := (reachable_constants h).2.2.1
  suffices hs : ¬(g.player.jumping = true ∧ g.player.sliding = true) ∧
      (g.player.sliding = false → g.player.height = g.player.defaultHeight) by
    refine ⟨hs.1, fun h0 => ⟨hs.2 h0, ?_⟩⟩
    rw [hs.2 h0, hc]
  clear hc
  induction h with
  | construct hs => simp [construct]
  | start _ ih =>
    unfold start
    split_ifs
    · exact ih
    · simp [restart]
  | restart _ ih => simp [restart]
  | togglePause force _ ih =>
    unfold togglePause
    split_ifs
    · exact ih
    · simpa using ih
  | jump _ ih =>
    unfold jump
    split_ifs
    · exact ih
    · exact ih
    · simp
  | slide _ ih =>
    unfold slide
    split_ifs with h1 h2
    · exact ih
    · exact ih
    · simpa using h2
  | @update g M dt k _ _ ih =>
    obtain ⟨-, -, p3, -, pj, ps, ph⟩ := slideCountdown_integratePlayer g.gravity dt g.player
    rw [update_player]
    refine ⟨fun hjs => ih.1 ⟨pj hjs.1, ps hjs.2⟩, fun hs0 => ?_⟩
    rw [p3]
    rcases ph with ph | ph
    · rw [ph.2]
      exact ih.2 (ph.1 ▸ hs0)
    · exact ph.2

/-- C7, at a state that can arise: after `start` and `slide` the flags are not
both set. -/
theorem player_flags_invariant_witness :
    Reachable (slide (start (construct 0))) ∧
    ¬((slide (start (construct 0))).player.jumping = true ∧
      (slide (start (construct 0))).player.sliding = true) :=
  ⟨Reachable.slide (Reachable.start (Reachable.construct 0)),
    (player_flags_invariant _ (Reachable.slide (Reachable.start (Reachable.construct 0)))).1⟩

/-- C8: for `dt ≥ 0`, `update(dt)` turns a speed that is at most `maxSpeed = 860`
into `min(860, speed + 6 * dt)`, which is at least the old speed and at most
860; and in every reachable state the speed lies in [380, 860] and a tick does
not decrease it. -/
theorem speed_ramp_bounded (M : JsMath) (dt : ℚ) (g : RunnerGame) (k : Nat) (hdt : 0 ≤ dt) :
    (g.maxSpeed = 860 → g.speed ≤ g.maxSpeed →
      (update M dt g k).1.speed = min 860 (g.speed + 6 * dt) ∧
      g.speed ≤ (update M dt g k).1.speed ∧ (update M dt g k).1.speed ≤ 860) ∧
    (Reachable g →
      380 ≤ g.speed ∧ g.speed ≤ 860 ∧
      (update M dt g k).1.speed = min 860 (g.speed + 6 * dt) ∧
      g.speed ≤ (update M dt g k).1.speed ∧ (update M dt g k).1.speed ≤ 860) := by
  have step : g.maxSpeed = 860 → g.speed ≤ g.maxSpeed →
      (update M dt g k).1.speed = min 860 (g.speed + 6 * dt) ∧
      g.speed ≤ (update M dt g k).1.speed ∧ (update M dt g k).1.speed ≤ 860 := by
    intro hm hs
    rw [update_speed, hm]
    rw [hm] at hs
    exact ⟨rfl, le_min hs (by linarith), min_le_left _ _⟩
  refine ⟨step, fun hr => ?_⟩
  have hm := (reachable_constants hr).2.1
  have hs := reachable_speed hr
  exact ⟨hs.1, hs.2, step hm (by rw [hm]; exact hs.2)⟩

/-- C8, at a state that can arise: one tick of 1/60 s after a restart keeps the
speed at or below 860. -/
theorem speed_ramp_bounded_witness :
    (0 : ℚ) ≤ 1 / 60 ∧ Reachable (restart (construct 0)) ∧
    (update exampleMath (1 / 60) (restart (construct 0)) 0).1.speed ≤ 860 :=
  ⟨by norm_num, Reachable.restart (Reachable.construct 0),
    ((speed_ramp_bounded exampleMath (1 / 60) (restart (construct 0)) 0 (by norm_num)).2
      (Reachable.restart (Reachable.construct 0))).2.2.2.2⟩

/-- C9: `update(dt)` turns the spawn interval into
`max(0.55, spawnInterval - 0.008 * dt)`; for `dt ≥ 0` and an interval of at
least 0.55 the new one lies between 0.55 and the old one; `restart` sets it to
1.35; and in every reachable state it lies in [0.55, 1.35] and a tick does not
increase it. -/
theorem spawn_interval_decay (M : JsMath) (dt : ℚ) (g : RunnerGame) (k : Nat)
    (hdt : 0 ≤ dt) :
    (update M dt g k).1.spawnInterval = max (55 / 100) (g.spawnInterval - 8 / 1000 * dt) ∧
    (55 / 100 ≤ g.spawnInterval →
      55 / 100 ≤ (update M dt g k).1.spawnInterval ∧
      (update M dt g k).1.spawnInterval ≤ g.spawnInterval) ∧
    (restart g).spawnInterval = 135 / 100 ∧
    (Reachable g →
      55 / 100 ≤ g.spawnInterval ∧ g.spawnInterval ≤ 135 / 100 ∧
      55 / 100 ≤ (update M dt g k).1.spawnInterval ∧
      (update M dt g k).1.spawnInterval ≤ g.spawnInterval) := by
  have step : 55 / 100 ≤ g.spawnInterval →
      55 / 100 ≤ (update M dt g k).1.spawnInterval ∧
      (update M dt g k).1.spawnInterval ≤ g.spawnInterval := by
    intro hs
    rw [update_spawnInterval]
    exact ⟨le_max_left _ _, max_le hs (by linarith)⟩
  refine ⟨update_spawnInterval M dt g k, step, rfl, fun hr => ?_⟩
  have hs := reachable_spawnInterval hr
  exact ⟨hs.1, hs.2, step hs.1⟩

/-- C9, at a state that can arise: one tick of 1/60 s after a restart leaves the
spawn interval at or above 0.55. -/
theorem spawn_interval_decay_witness :
    (0 : ℚ) ≤ 1 / 60 ∧ Reachable (restart (construct 0)) ∧
    55 / 100 ≤ (update exampleMath (1 / 60) (restart (construct 0)) 0).1.spawnInterval :=
  ⟨by norm_num, Reachable.restart (Reachable.construct 0),
    ((spawn_interval_decay exampleMath (1 / 60) (restart (construct 0)) 0 (by norm_num)).2.2.2
      (Reachable.restart (Reachable.construct 0))).2.2.1⟩

/-- C3: from phase running, `update(dt)` ends in phase gameover exactly when
some obstacle that is active when the obstacle loop runs, moved left by
`speed * dt` (the speed and the player being those the tick leaves) and not past
the left margin, has a box that intersects the player's box; then the high
score is the larger of the old high score and the score (500 and 420 give 500,
500 and 650 give 650); otherwise the phase and the high score are unchanged.
The speed and the player the tick leaves are those of its kinematics. -/
theorem update_gameover_iff (M : JsMath) (dt : ℚ) (g : RunnerGame) (k : Nat)
    (hrun : g.state = Phase.running) :
    ((update M dt g k).1.state = Phase.gameover ↔
      ∃ o ∈ (updateHead M dt g k).1.obstacles.items,
        o.active = true ∧
        ¬(o.x - (update M dt g k).1.speed * dt + o.width < -40) ∧
        intersects (update M dt g k).1.player.box
          (⟨o.x - (update M dt g k).1.speed * dt, o.y, o.width, o.height⟩ : Box) = true) ∧
    ((update M dt g k).1.state = Phase.gameover →
      (update M dt g k).1.highScore = max g.highScore (update M dt g k).1.score ∧
      (g.highScore = 500 → (update M dt g k).1.score = 420 →
        (update M dt g k).1.highScore = 500) ∧
      (g.highScore = 500 → (update M dt g k).1.score = 650 →
        (update M dt g k).1.highScore = 650)) ∧
    ((update M dt g k).1.state ≠ Phase.gameover →
      (update M dt g k).1.state = g.state ∧ (update M dt g k).1.highScore = g.highScore) ∧
    (update M dt g k).1.speed = min g.maxSpeed (g.speed + 6 * dt) ∧
    (update M dt g k).1.player = slideCountdown dt (integratePlayer g.gravity dt g.player) := by
  obtain ⟨hst, hhs⟩ := update_state_highScore M dt g k
  obtain ⟨h1, h2, -⟩ := updateHead_fields M dt g k
  have hany : (updateHead M dt g k).1.obstacles.items.any
        (obstacleHits dt (updateHead M dt g k).1) = true ↔
      ∃ o ∈ (updateHead M dt g k).1.obstacles.items,
        o.active = true ∧
        ¬(o.x - (update M dt g k).1.speed * dt + o.width < -40) ∧
        intersects (update M dt g k).1.player.box
          (⟨o.x - (update M dt g k).1.speed * dt, o.y, o.width, o.height⟩ : Box) = true := by
    rw [← h1, ← h2]
    simp only [List.any_eq_true, obstacleHits, obstacleGone, movedObstacle, Obstacle.box,
      Bool.and_eq_true, Bool.not_eq_true', decide_eq_false_iff_not, and_assoc]
  by_cases hit : (updateHead M dt g k).1.obstacles.items.any
      (obstacleHits dt (updateHead M dt g k).1) = true
  · rw [if_pos hit] at hst hhs
    refine ⟨⟨fun _ => hany.1 hit, fun _ => hst⟩, fun _ => ⟨hhs, ?_, ?_⟩, fun hne => absurd hst hne,
      update_speed M dt g k, update_player M dt g k⟩
    · intro ha hb
      rw [hhs, ha, hb]
      norm_num
    · intro ha hb
      rw [hhs, ha, hb]
      norm_num
  · rw [if_neg hit] at hst hhs
    have hng : (update M dt g k).1.state ≠ Phase.gameover := by
      rw [hst, hrun]
      decide
    refine ⟨⟨fun hgo => absurd hgo hng, fun hex => absurd (hany.2 hex) hit⟩,
      fun hgo => absurd hgo hng, fun _ => ⟨hst, hhs⟩, update_speed M dt g k,
      update_player M dt g k⟩

/-- C3, at `hitState`: the phase is running and one fixed step ends in phase
gameover, the obstacle of slot 0 having moved into the player. -/
theorem update_gameover_iff_witness :
    hitState.state = Phase.running ∧
    (update exampleMath (1 / 60) hitState 0).1.state = Phase.gameover := by
  refine ⟨rfl, (update_gameover_iff exampleMath (1 / 60) hitState 0 rfl).1.2 ?_⟩
  obtain ⟨hs, hp, ho⟩ := hitState_step exampleMath 0
  rw [hs, hp, ho]
  refine ⟨⟨true, 190, 400, 40, 50, ObstacleType.ground⟩, ?_, rfl, ?_, ?_⟩
  · simp [hitState]
  · norm_num
  · norm_num [intersects]

/-- C4: with the player's left edge at or right of -30 (it is 140 in every
reachable state), `update(dt)` deactivates each token that is active when the
token loop runs and whose hitbox (centre `x - speed * dt`,
`y + 6 * sin(bob + 4 * dt)`, side `2 * radius`) intersects the player's box;
the token count grows by the number of these tokens, so by 1 when there is one;
an active token whose hitbox does not intersect stays active, moved, unless it
is past the left margin; and the token loop leaves the phase as the obstacle
loop left it.  The speed and the player the tick leaves are those of its
kinematics. -/
theorem token_collection (M : JsMath) (dt : ℚ) (g : RunnerGame) (k : Nat)
    (hx : -30 ≤ g.player.x) :
    (update M dt g k).1.tokensPool.items =
      (updateHead M dt g k).1.tokensPool.items.map (tokenAfter M dt (updateHead M dt g k).1) ∧
    (∀ t : Token, t.active = true →
      (intersects (update M dt g k).1.player.box
          (⟨t.x - (update M dt g k).1.speed * dt - t.radius,
            t.y + M.sin (t.bob + dt * 4) * 6 - t.radius, t.radius * 2, t.radius * 2⟩ : Box)
          = true →
        (tokenAfter M dt (updateHead M dt g k).1 t).active = false) ∧
      (intersects (update M dt g k).1.player.box
          (⟨t.x - (update M dt g k).1.speed * dt - t.radius,
            t.y + M.sin (t.bob + dt * 4) * 6 - t.radius, t.radius * 2, t.radius * 2⟩ : Box)
          = false →
        ¬(t.x - (update M dt g k).1.speed * dt + t.radius < -30) →
        tokenAfter M dt (updateHead M dt g k).1 t =
          ⟨true, t.x - (update M dt g k).1.speed * dt, t.y, t.radius, t.bob + dt * 4⟩)) ∧
    (update M dt g k).1.tokens = g.tokens +
      (((updateHead M dt g k).1.tokensPool.items.countP (fun t =>
        t.active && intersects (update M dt g k).1.player.box
          (⟨t.x - (update M dt g k).1.speed * dt - t.radius,
            t.y + M.sin (t.bob + dt * 4) * 6 - t.radius, t.radius * 2, t.radius * 2⟩ : Box)
        ) : ℕ) : ℚ) ∧
    ((updateHead M dt g k).1.tokensPool.items.countP (fun t =>
        t.active && intersects (update M dt g k).1.player.box
          (⟨t.x - (update M dt g k).1.speed * dt - t.radius,
            t.y + M.sin (t.bob + dt * 4) * 6 - t.radius, t.radius * 2, t.radius * 2⟩ : Box)
        ) = 1 →
      (update M dt g k).1.tokens = g.tokens + 1) ∧
    (update M dt g k).1.state = (moveObstacles dt (updateHead M dt g k).1).state ∧
    (update M dt g k).1.speed = min g.maxSpeed (g.speed + 6 * dt) ∧
    (update M dt g k).1.player = slideCountdown dt (integratePlayer g.gravity dt g.player) := by
  obtain ⟨-, hitems⟩ := update_tokens M dt g k
  obtain ⟨h1, h2, -⟩ := updateHead_fields M dt g k
  have htok := update_tokens_count M dt g k hx
  refine ⟨hitems, ?_, htok, ?_, ?_, update_speed M dt g k, update_player M dt g k⟩
  · intro t ha
    rw [← h1, ← h2]
    constructor
    · intro hi
      have hi2 : intersects (updateHead M dt g k).1.player.box
          (tokenHitbox M (movedToken (updateHead M dt g k).1.speed dt t)) = true := hi
      simp only [tokenAfter, ha, hi2, if_true]
      split_ifs <;> rfl
    · intro hi hg
      have hi2 : intersects (updateHead M dt g k).1.player.box
          (tokenHitbox M (movedToken (updateHead M dt g k).1.speed dt t)) = false := hi
      have hg2 : tokenGone (updateHead M dt g k).1.speed dt t = false := by
        simpa [tokenGone, movedToken] using hg
      obtain ⟨a, x, y, r, b⟩ := t
      simp only at ha
      subst ha
      rw [tokenAfter, if_pos rfl, hg2, hi2]
      rfl
  · intro hone
    rw [htok, hone]
    norm_num
  · unfold update
    exact (moveTokens_state M dt _).1

/-- C4, at `tokenState`: the player's left edge is at 140, and one fixed step
collects the token of slot 0, so the token count grows by 1. -/
theorem token_collection_witness :
    (-30 : ℚ) ≤ tokenState.player.x ∧
    (update exampleMath (1 / 60) tokenState 0).1.tokens = tokenState.tokens + 1 :=
  ⟨by norm_num [tokenState, restart, construct],
    (token_collection exampleMath (1 / 60) tokenState 0
      (by norm_num [tokenState, restart, construct])).2.2.2.1
      (tokenState_count exampleMath (fun _ => ⟨by norm_num [exampleMath],
        by norm_num [exampleMath]⟩) 0)⟩

/-- C1, at `tokenState` (phase running), for every `sin` with values in
[-1, 1]: one fixed step collects a token, so the token count is 1 and the
distance 6.335, and the stored score is 0, while `floor(distance / 8) +
tokens * 75` on the distance and token count after the step is 75. -/
theorem score_stale_on_token_tick (M : JsMath) (hsin : ∀ x, -1 ≤ M.sin x ∧ M.sin x ≤ 1)
    (k : Nat) :
    tokenState.state = Phase.running ∧
    (update M (1 / 60) tokenState k).1.tokens = 1 ∧
    (update M (1 / 60) tokenState k).1.distance = 3801 / 600 ∧
    (update M (1 / 60) tokenState k).1.score = 0 ∧
    ((⌊(update M (1 / 60) tokenState k).1.distance / 8⌋ : ℤ) : ℚ) +
      (update M (1 / 60) tokenState k).1.tokens * 75 = 75 ∧
    (update M (1 / 60) tokenState k).1.score ≠
      ((⌊(update M (1 / 60) tokenState k).1.distance / 8⌋ : ℤ) : ℚ) +
        (update M (1 / 60) tokenState k).1.tokens * 75 := by
  have htok : (update M (1 / 60) tokenState k).1.tokens = 1 := by
    rw [update_tokens_count M (1 / 60) tokenState k (by norm_num [tokenState, restart, construct]),
      tokenState_count M hsin k]
    norm_num [tokenState, restart]
  obtain ⟨hd, hsc⟩ := update_distance_score M (1 / 60) tokenState k
  have hdist : (update M (1 / 60) tokenState k).1.distance = 3801 / 600 := by
    rw [hd]
    norm_num [tokenState, restart, construct]
  have hfloor : (⌊(update M (1 / 60) tokenState k).1.distance / 8⌋ : ℤ) = 0 := by
    rw [hdist, Int.floor_eq_iff]
    norm_num
  have hscore : (update M (1 / 60) tokenState k).1.score = 0 := by
    rw [hsc, hfloor]
    norm_num [tokenState, restart]
  refine ⟨rfl, htok, hdist, hscore, ?_, ?_⟩
  · rw [hfloor, htok]
    norm_num
  · rw [hscore, hfloor, htok]
    norm_num

/-- C1, with a `sin` of values in [-1, 1]: after one fixed step from
`tokenState` the stored score is 0 and the token count is 1. -/
theorem score_stale_on_token_tick_witness :
    (∀ x, -1 ≤ exampleMath.sin x ∧ exampleMath.sin x ≤ 1) ∧
    (update exampleMath (1 / 60) tokenState 0).1.score = 0 ∧
    (update exampleMath (1 / 60) tokenState 0).1.tokens = 1 :=
  ⟨fun _ => ⟨by norm_num [exampleMath], by norm_num [exampleMath]⟩,
    (score_stale_on_token_tick exampleMath
      (fun _ => ⟨by norm_num [exampleMath], by norm_num [exampleMath]⟩) 0).2.2.2.1,
    (score_stale_on_token_tick exampleMath
      (fun _ => ⟨by norm_num [exampleMath], by norm_num [exampleMath]⟩) 0).2.1⟩

/-- C2, at `hitState` (phase running) and the frame `loop(40)`, whose `while`
starts from `hitFrame`: the first fixed step ends in phase gameover with
distance 6.335 and speed 380.1, and the frame goes on to apply a second fixed
step, ending with distance 7603/600 and speed 380.2, not the values right after
the step that set gameover. -/
theorem loop_steps_past_gameover (M : JsMath) (k : Nat) :
    hitState.state = Phase.running ∧
    loop M 40 hitState k = drain M 2 hitFrame k ∧
    (update M (1 / 60) hitFrame k).1.state = Phase.gameover ∧
    (update M (1 / 60) hitFrame k).1.distance = 3801 / 600 ∧
    (update M (1 / 60) hitFrame k).1.speed = 3801 / 10 ∧
    (loop M 40 hitState k).1.state = Phase.gameover ∧
    (loop M 40 hitState k).1.distance = 7603 / 600 ∧
    (loop M 40 hitState k).1.speed = 3802 / 10 ∧
    (loop M 40 hitState k).1.distance ≠ (update M (1 / 60) hitFrame k).1.distance ∧
    (loop M 40 hitState k).1.speed ≠ (update M (1 / 60) hitFrame k).1.speed := by
  obtain ⟨h1, h2, h3, h4, h5, h6⟩ := hitFrame_steps M k
  have hl := loop_hitState M k
  refine ⟨rfl, hl, h1, h2, h3, ?_, ?_, ?_, ?_, ?_⟩
  · rw [hl]
    exact h4
  · rw [hl]
    exact h5
  · rw [hl]
    exact h6
  · rw [hl, h5, h2]
    norm_num
  · rw [hl, h6, h3]
    norm_num

/-- C12: `jump()` leaves the state as it is when the player's jumping flag is
set, and `jump()` and `slide()` leave the state as it is in every phase other
than running. -/
theorem jump_slide_noop (g : RunnerGame) :
    (g.player.jumping = true → jump g = g) ∧
    (g.state ≠ Phase.running → jump g = g ∧ slide g = g) := by
  refine ⟨fun hj => ?_, fun hs => ⟨?_, ?_⟩⟩
  · unfold jump
    split_ifs <;> rfl
  · unfold jump
    rw [if_pos hs]
  · unfold slide
    rw [if_pos hs]

/-- C12, at states that can arise: a second `jump()` in mid-air changes nothing,
and neither does `jump()` before the game is started. -/
theorem jump_slide_noop_witness :
    (jump (start (construct 0))).player.jumping = true ∧
    jump (jump (start (construct 0))) = jump (start (construct 0)) ∧
    (construct 0).state ≠ Phase.running ∧ jump (construct 0) = construct 0 :=
  ⟨rfl, (jump_slide_noop (jump (start (construct 0)))).1 rfl, by decide,
    ((jump_slide_noop (construct 0)).2 (by decide)).1⟩

/-- C13: `togglePause()` without an argument turns phase running into paused and
paused into running and writes no other field; in phase start and in phase
gameover it leaves the state as it is. -/
theorem togglePause_toggle (g : RunnerGame) :
    (g.state = Phase.running →
      togglePause none g = { g with state := Phase.paused }) ∧
    (g.state = Phase.paused →
      togglePause none g = { g with state := Phase.running }) ∧
    (g.state = Phase.start → togglePause none g = g) ∧
    (g.state = Phase.gameover → togglePause none g = g) := by
  refine ⟨fun h => ?_, fun h => ?_, fun h => ?_, fun h => ?_⟩
  · simp [togglePause, h]
  · simp [togglePause, h]
  · simp [togglePause, h]
  · simp [togglePause, h]

/-- C13, at a state that can arise: pausing a started game gives phase paused. -/
theorem togglePause_toggle_witness :
    (start (construct 0)).state = Phase.running ∧
    (togglePause none (start (construct 0))).state = Phase.paused :=
  ⟨rfl, by rw [(togglePause_toggle (start (construct 0))).1 rfl]⟩

/-- C18: in phase paused, `togglePause(false)`, the call of the Resume button,
leaves the state as it is: `shouldPause` is `!force`, which is true, so the
phase written is paused again. -/
theorem resume_stays_paused (g : RunnerGame) (h : g.state = Phase.paused) :
    togglePause (some false) g = g ∧ (togglePause (some false) g).state ≠ Phase.running := by
  have e : togglePause (some false) g = g := by
    obtain ⟨p, a1, a2, a3, a4, a5, a6, a7, a8, a9, st, b1, b2, b3, b4, b5, b6, b7, b8, b9,
      c1, c2⟩ := g
    simp only at h
    subst h
    simp [togglePause]
  refine ⟨e, ?_⟩
  rw [e, h]
  decide

/-- C18, at a state that can arise: a started game that was paused stays paused
under `togglePause(false)`. -/
theorem resume_stays_paused_witness :
    (togglePause none (start (construct 0))).state = Phase.paused ∧
    (togglePause (some false) (togglePause none (start (construct 0)))).state
      = Phase.paused := by
  have h : (togglePause none (start (construct 0))).state = Phase.paused := rfl
  exact ⟨h, by rw [(resume_stays_paused _ h).1]; exact h⟩

/-- C17: when some slot of the obstacle pool is inactive and the draws for the
width and the height lie in [0, 1), `spawnObstacle` writes the inactive slot of
lowest index and no other slot; the obstacle it writes is active, has
`x = WIDTH + 40` and width `36 + 34 * w` in [36, 70); when the first draw
exceeds 0.72 it is hanging with height `90 + 55 * h` in [90, 145) and bottom
edge `GROUND_Y - 30`, otherwise it is a ground obstacle with height
`40 + 72 * h` in [40, 112) and bottom edge `GROUND_Y`. -/
theorem spawnObstacle_first_inactive (M : JsMath) (g : RunnerGame) (k : Nat)
    (hfree : ∃ o ∈ g.obstacles.items, o.active = false)
    (hw : 0 ≤ M.random (k + 1) ∧ M.random (k + 1) < 1)
    (hh : 0 ≤ M.random (k + 2) ∧ M.random (k + 2) < 1) :
    ∃ (i : Nat) (o : Obstacle),
      (∃ h : i < g.obstacles.items.length,
        (g.obstacles.items.get ⟨i, h⟩).active = false ∧
        ∀ j (hj : j < i), (g.obstacles.items.get ⟨j, Nat.lt_trans hj h⟩).active = true) ∧
      (spawnObstacle M g k).1 = { g with obstacles := ⟨g.obstacles.items.set i o⟩ } ∧
      (spawnObstacle M g k).2 = k + 3 ∧
      (spawnObstacle M g k).1.obstacles.items.length = g.obstacles.items.length ∧
      (spawnObstacle M g k).1.obstacles.items[i]? = some o ∧
      (∀ j, j ≠ i →
        (spawnObstacle M g k).1.obstacles.items[j]? = g.obstacles.items[j]?) ∧
      o.active = true ∧ o.x = WIDTH + 40 ∧
      o.width = 36 + 34 * M.random (k + 1) ∧ 36 ≤ o.width ∧ o.width < 70 ∧
      (M.random k > 72 / 100 →
        o.type = ObstacleType.hanging ∧ o.height = 90 + 55 * M.random (k + 2) ∧
        90 ≤ o.height ∧ o.height < 145 ∧ o.y + o.height = GROUND_Y - 30) ∧
      (¬(M.random k > 72 / 100) →
        o.type = ObstacleType.ground ∧ o.height = 40 + 72 * M.random (k + 2) ∧
        40 ≤ o.height ∧ o.height < 112 ∧ o.y + o.height = GROUND_Y) := by
  obtain ⟨e, hmem, hact⟩ := hfree
  have hsome : ∃ i, g.obstacles.acquire.1 = some i := by
    cases hfind : g.obstacles.acquire.1 with
    | some i => exact ⟨i, rfl⟩
    | none =>
      have hall : ∀ o ∈ g.obstacles.items, o.active = true := by
        simpa [Pool.acquire, PoolItem.active] using hfind
      rw [hall e hmem] at hact
      cases hact
  obtain ⟨i, hi⟩ := hsome
  have hfirst : ∃ h : i < g.obstacles.items.length,
      (g.obstacles.items.get ⟨i, h⟩).active = false ∧
      ∀ j (hj : j < i), (g.obstacles.items.get ⟨j, Nat.lt_trans hj h⟩).active = true := by
    simpa [Pool.acquire, PoolItem.active, List.findIdx?_eq_some_iff_getElem] using hi
  obtain ⟨o, hsp, ha, hx, hwd, hhang, hground⟩ := spawnObstacle_of_acquire M g k i hi
  have hlt : i < g.obstacles.items.length := hfirst.fst
  refine ⟨i, o, hfirst, ?_, ?_, ?_, ?_, ?_, ha, hx, ?_, ?_, ?_, ?_, ?_⟩
  · rw [hsp]
  · rw [hsp]
  · rw [hsp]
    simp
  · rw [hsp]
    simp [hlt]
  · intro j hj
    rw [hsp]
    simp [List.getElem?_set_ne (Ne.symm hj)]
  · rw [hwd]
    ring
  · rw [hwd]
    linarith [hw.1]
  · rw [hwd]
    linarith [hw.2]
  · intro ht
    obtain ⟨h1, h2, h3⟩ := hhang ht
    refine ⟨h1, ?_, ?_, ?_, h3⟩
    · rw [h2]
      ring
    · rw [h2]
      linarith [hh.1]
    · rw [h2]
      linarith [hh.2]
  · intro ht
    obtain ⟨h1, h2, h3⟩ := hground ht
    refine ⟨h1, ?_, ?_, ?_, h3⟩
    · rw [h2]
      ring
    · rw [h2]
      linarith [hh.1]
    · rw [h2]
      linarith [hh.2]

/-- C17, on the constructor's pool with every draw 1/2: some slot holds an
active obstacle after `spawnObstacle`. -/
theorem spawnObstacle_first_inactive_witness :
    (∃ o ∈ (construct 0).obstacles.items, o.active = false) ∧
    (0 ≤ exampleMath.random 1 ∧ exampleMath.random 1 < 1) ∧
    (0 ≤ exampleMath.random 2 ∧ exampleMath.random 2 < 1) ∧
    ∃ (i : Nat) (o : Obstacle),
      (spawnObstacle exampleMath (construct 0) 0).1.obstacles.items[i]? = some o ∧
      o.active = true := by
  have hfree : ∃ o ∈ (construct 0).obstacles.items, o.active = false :=
    ⟨⟨false, 0, 0, 40, 40, ObstacleType.block⟩, by simp [construct, Pool.construct], rfl⟩
  have hw : 0 ≤ exampleMath.random (0 + 1) ∧ exampleMath.random (0 + 1) < 1 := by
    norm_num [exampleMath]
  have hh : 0 ≤ exampleMath.random (0 + 2) ∧ exampleMath.random (0 + 2) < 1 := by
    norm_num [exampleMath]
  obtain ⟨i, o, -, -, -, -, hget, -, ha, -⟩ :=
    spawnObstacle_first_inactive exampleMath (construct 0) 0 hfree hw hh
  exact ⟨hfree, hw, hh, i, o, hget, ha⟩

/-- C20: in every reachable state in which the player's jumping flag is clear,
the player has no vertical velocity and stands on the ground:
`vy = 0` and `y = GROUND_Y - height`. -/
theorem grounded_when_not_jumping (g : RunnerGame) (h : Reachable g)
    (hj : g.player.jumping = false) :
    g.player.vy = 0 ∧ g.player.y = GROUND_Y - g.player.height := by
  revert hj
  induction h with
  | construct hs =>
    intro _
    norm_num [construct, GROUND_Y]
  | start _ ih =>
    unfold start
    split_ifs
    · exact ih
    · intro _
      exact ⟨rfl, rfl⟩
  | restart _ ih =>
    intro _
    exact ⟨rfl, rfl⟩
  | togglePause force _ ih =>
    unfold togglePause
    split_ifs
    · exact ih
    · exact ih
  | jump _ ih =>
    unfold jump
    split_ifs
    · exact ih
    · exact ih
    · intro hj
      cases hj
  | slide _ ih =>
    unfold slide
    split_ifs with h1 h2
    · exact ih
    · exact ih
    · intro _
      exact ⟨(ih (by simpa using h2)).1, rfl⟩
  | @update g M dt k hg hdt ih =>
    have hgr : (0 : ℚ) ≤ g.gravity := by
      rw [(reachable_constants hg).2.2.2.2.2.2.1]
      norm_num
    rw [update_player]
    exact kinematics_grounded g.gravity dt g.player hgr hdt ih

/-- C20, at a state that can arise: after `start` and `slide` the jumping flag
is clear and the player stands on the ground at its slide height. -/
theorem grounded_when_not_jumping_witness :
    Reachable (slide (start (construct 0))) ∧
    (slide (start (construct 0))).player.jumping = false ∧
    (slide (start (construct 0))).player.y =
      GROUND_Y - (slide (start (construct 0))).player.height :=
  ⟨Reachable.slide (Reachable.start (Reachable.construct 0)), rfl,
    (grounded_when_not_jumping _
      (Reachable.slide (Reachable.start (Reachable.construct 0))) rfl).2⟩

/-- C19, at the state `start` and `slide` leave (phase running, the player
sliding on the ground at `y = 410` with height 40): `jump()` sets the jumping
flag and restores height 70 but leaves `y` at 410, which is 30 below the ground
position 380 for that height, so the ground clamp of the next `update(1/60)`
ends the jump: the jumping flag is clear, `vy = 0` and `y = 380 =
GROUND_Y - height`.  From the standing player the same calls leave the player
in the air. -/
theorem jump_from_slide_cancelled (M : JsMath) (k : Nat) :
    (slide (start (construct 0))).state = Phase.running ∧
    (slide (start (construct 0))).player.jumping = false ∧
    (slide (start (construct 0))).player.sliding = true ∧
    (slide (start (construct 0))).player.y =
      GROUND_Y - (slide (start (construct 0))).player.height ∧
    (jump (slide (start (construct 0)))).player.jumping = true ∧
    (jump (slide (start (construct 0)))).player.y = 410 ∧
    (jump (slide (start (construct 0)))).player.height = 70 ∧
    (update M (1 / 60) (jump (slide (start (construct 0)))) k).1.player.jumping = false ∧
    (update M (1 / 60) (jump (slide (start (construct 0)))) k).1.player.vy = 0 ∧
    (update M (1 / 60) (jump (slide (start (construct 0)))) k).1.player.y = 380 ∧
    (update M (1 / 60) (jump (slide (start (construct 0)))) k).1.player.height = 70 ∧
    (update M (1 / 60) (jump (start (construct 0))) k).1.player.jumping = true ∧
    (update M (1 / 60) (jump (start (construct 0))) k).1.player.vy = -860 ∧
    (update M (1 / 60) (jump (start (construct 0))) k).1.player.y = 380 - 43 / 3 := by
  have ps : (jump (slide (start (construct 0)))).player =
      { x := 140, y := GROUND_Y - 40, width := 48, height := 70, defaultHeight := 70,
        slideHeight := 40, vy := -900, jumping := true, sliding := false,
        slideTimer := 1 / 2 } := rfl
  have gs : (jump (slide (start (construct 0)))).gravity = 2400 := rfl
  have pt : (jump (start (construct 0))).player =
      { x := 140, y := GROUND_Y - 70, width := 48, height := 70, defaultHeight := 70,
        slideHeight := 40, vy := -900, jumping := true, sliding := false,
        slideTimer := 0 } := rfl
  have gt : (jump (start (construct 0))).gravity = 2400 := rfl
  have hslide : (update M (1 / 60) (jump (slide (start (construct 0)))) k).1.player =
      { x := 140, y := 380, width := 48, height := 70, defaultHeight := 70, slideHeight := 40,
        vy := 0, jumping := false, sliding := false, slideTimer := 1 / 2 } := by
    rw [update_player, gs, ps]
    norm_num [integratePlayer, slideCountdown, GROUND_Y]
  have hstand : (update M (1 / 60) (jump (start (construct 0))) k).1.player =
      { x := 140, y := 380 - 43 / 3, width := 48, height := 70, defaultHeight := 70,
        slideHeight := 40, vy := -860, jumping := true, sliding := false, slideTimer := 0 } := by
    rw [update_player, gt, pt]
    norm_num [integratePlayer, slideCountdown, GROUND_Y]
  rw [hslide, hstand, ps]
  have pl : (slide (start (construct 0))).player =
      { x := 140, y := GROUND_Y - 40, width := 48, height := 40, defaultHeight := 70,
        slideHeight := 40, vy := 0, jumping := false, sliding := true,
        slideTimer := 1 / 2 } := rfl
  rw [pl]
  refine ⟨rfl, rfl, rfl, rfl, rfl, ?_, rfl, rfl, rfl, rfl, rfl, rfl, rfl, rfl⟩
  norm_num [GROUND_Y]

/-- C11: over every sequence of `spawnObstacle`, `spawnToken`, `update` and
`restart` calls from the constructor's state, the obstacle pool has 28 slots
and the token pool 20, so at most 28 obstacles and at most 20 tokens are
active; and a spawn call on a pool whose slots are all active leaves the whole
state as it is and uses no draw. -/
theorem pool_capacity (g : RunnerGame) (h : PoolReachable g) :
    g.obstacles.items.length = 28 ∧ g.tokensPool.items.length = 20 ∧
    g.obstacles.activeItems.length ≤ 28 ∧ g.tokensPool.activeItems.length ≤ 20 ∧
    (∀ (M : JsMath) (k : Nat), (∀ o ∈ g.obstacles.items, o.active = true) →
      spawnObstacle M g k = (g, k)) ∧
    (∀ (M : JsMath) (k : Nat), (∀ t ∈ g.tokensPool.items, t.active = true) →
      spawnToken M g k = (g, k)) := by
  have hlen : g.obstacles.items.length = 28 ∧ g.tokensPool.items.length = 20 := by
    induction h with
    | construct hs => simp [construct, Pool.construct]
    | @spawnObstacle g M k _ ih =>
      obtain ⟨h1, h2⟩ := spawnObstacle_pools M g k
      rw [h1, h2]
      exact ih
    | @spawnToken g M k _ ih =>
      obtain ⟨h1, h2⟩ := spawnToken_pools M g k
      rw [h1, h2]
      exact ih
    | @update g M dt k _ ih =>
      obtain ⟨h1, h2⟩ := update_pools M dt g k
      rw [h1, h2]
      exact ih
    | restart _ ih => simpa [restart, Pool.reset] using ih
    | start _ ih =>
      unfold start
      split_ifs
      · exact ih
      · simpa [restart, Pool.reset] using ih
    | togglePause force _ ih =>
      unfold togglePause
      split_ifs
      · exact ih
      · exact ih
    | jump _ ih =>
      unfold jump
      split_ifs
      · exact ih
      · exact ih
      · exact ih
    | slide _ ih =>
      unfold slide
      split_ifs
      · exact ih
      · exact ih
      · exact ih
  refine ⟨hlen.1, hlen.2, ?_, ?_, ?_, ?_⟩
  · rw [← hlen.1]
    exact List.length_filter_le _ _
  · rw [← hlen.2]
    exact List.length_filter_le _ _
  · intro M k hall
    apply spawnObstacle_of_full
    simpa [Pool.acquire, PoolItem.active] using hall
  · intro M k hall
    apply spawnToken_of_full
    simpa [Pool.acquire, PoolItem.active] using hall

/-- C11, at a state that can arise: after `restart` and a call of
`spawnObstacle` the obstacle pool has 28 slots. -/
theorem pool_capacity_witness :
    PoolReachable (spawnObstacle exampleMath (restart (construct 0)) 0).1 ∧
    (spawnObstacle exampleMath (restart (construct 0)) 0).1.obstacles.items.length = 28 :=
  ⟨PoolReachable.spawnObstacle exampleMath 0 (PoolReachable.restart (PoolReachable.construct 0)),
    (pool_capacity _ (PoolReachable.spawnObstacle exampleMath 0
      (PoolReachable.restart (PoolReachable.construct 0)))).1⟩

/-- C14, as the code has it: one `update(dt)` calls `gameOver` once for every
obstacle that is active when the obstacle loop runs, stays on screen after its
move and then intersects the player; when there is such an obstacle the phase
the tick leaves is gameover and the high score is the larger of the old high
score and the score, as after one call, however many calls were made; when
there is none, no call is made and the phase and the high score are
unchanged. -/
theorem gameOver_called_per_hit (M : JsMath) (dt : ℚ) (g : RunnerGame) (k : Nat) :
    gameOverCalls M dt g k =
      (updateHead M dt g k).1.obstacles.items.countP
        (obstacleHits dt (updateHead M dt g k).1) ∧
    (0 < gameOverCalls M dt g k →
      (update M dt g k).1.state = Phase.gameover ∧
      (update M dt g k).1.highScore = max g.highScore (update M dt g k).1.score) ∧
    (gameOverCalls M dt g k = 0 →
      (update M dt g k).1.state = g.state ∧ (update M dt g k).1.highScore = g.highScore) := by
  have hcalls : gameOverCalls M dt g k =
      (updateHead M dt g k).1.obstacles.items.countP
        (obstacleHits dt (updateHead M dt g k).1) := by
    unfold gameOverCalls
    exact obstacleLoopCalls_eq dt _ _
  obtain ⟨hst, hhs⟩ := update_state_highScore M dt g k
  refine ⟨hcalls, fun hpos => ?_, fun hzero => ?_⟩
  · rw [hcalls, List.countP_pos_iff] at hpos
    have hany : (updateHead M dt g k).1.obstacles.items.any
        (obstacleHits dt (updateHead M dt g k).1) = true := by
      rw [List.any_eq_true]
      exact hpos
    rw [if_pos hany] at hst hhs
    exact ⟨hst, hhs⟩
  · rw [hcalls, List.countP_eq_zero] at hzero
    have hany : ¬((updateHead M dt g k).1.obstacles.items.any
        (obstacleHits dt (updateHead M dt g k).1) = true) := by
      rw [List.any_eq_true]
      rintro ⟨o, ho, hh⟩
      exact hzero o ho hh
    rw [if_neg hany] at hst hhs
    exact ⟨hst, hhs⟩

/-- C14 fails at `doubleHitState` (phase running): one fixed step moves the
obstacles of slots 0 and 1 into the player and calls `gameOver` twice, not
once. -/
theorem gameOver_called_twice :
    doubleHitState.state = Phase.running ∧
    gameOverCalls exampleMath (1 / 60) doubleHitState 0 = 2 ∧
    gameOverCalls exampleMath (1 / 60) doubleHitState 0 ≠ 1 := by
  have h := doubleHitState_calls exampleMath 0
  refine ⟨rfl, h, ?_⟩
  rw [h]
  decide

/-- C15: for a frame with accumulator `a` in [0, 1/60) and `e ≥ 0` seconds since
the last frame, `dt` is `min(0.1, e)`, or 1/60 when `e = 0`; in phase running
`loop` applies exactly `n = floor((a + dt) * 60)` fixed steps, at most 6 (more
fuel for the `while` changes nothing), and leaves an accumulator in [0, 1/60)
with `a + dt = n / 60 +` that accumulator; in every other phase it writes the
frame counters only. -/
theorem loop_fixed_steps (M : JsMath) (timestamp e : ℚ) (g : RunnerGame) (k : Nat)
    (hel : (timestamp - g.lastFrame) / 1000 = e) (he : 0 ≤ e)
    (ha0 : 0 ≤ g.accumulator) (ha1 : g.accumulator < 1 / 60) :
    ∃ (dt fps : ℚ) (fc : FpsCounter) (n : Nat),
      dt = (if e = 0 then 1 / 60 else min (1 / 10) e) ∧
      (n : ℤ) = ⌊(g.accumulator + dt) * 60⌋ ∧ n ≤ 6 ∧
      (g.state = Phase.running →
        loop M timestamp g k =
          fixedSteps M n
            { g with
              lastFrame := timestamp
              fps := fps
              fpsCounter := fc
              accumulator := g.accumulator + dt } k ∧
        (∀ m : Nat,
          drain M (n + m)
            { g with
              lastFrame := timestamp
              fps := fps
              fpsCounter := fc
              accumulator := g.accumulator + dt } k = loop M timestamp g k) ∧
        0 ≤ (loop M timestamp g k).1.accumulator ∧
        (loop M timestamp g k).1.accumulator < 1 / 60 ∧
        g.accumulator + dt = (n : ℚ) / 60 + (loop M timestamp g k).1.accumulator) ∧
      (g.state ≠ Phase.running →
        loop M timestamp g k =
          ({ g with lastFrame := timestamp, fps := fps, fpsCounter := fc }, k)) := by
  subst hel
  obtain ⟨fps, fc, hr, hn⟩ := loop_eq M timestamp g k
  have hF : FIXED_STEP = 1 / 60 := rfl
  generalize hdt : min MAX_DT (if (timestamp - g.lastFrame) / 1000 = 0
    then FIXED_STEP else (timestamp - g.lastFrame) / 1000) = dt at hr
  generalize (timestamp - g.lastFrame) / 1000 = e at he hdt ⊢
  have hdt2 : dt = (if e = 0 then 1 / 60 else min (1 / 10) e) := by
    rw [← hdt]
    by_cases h0 : e = 0
    · rw [if_pos h0, if_pos h0]
      norm_num [MAX_DT, FIXED_STEP]
    · rw [if_neg h0, if_neg h0]
      rfl
  have hdt0 : 0 ≤ dt := by
    rw [hdt2]
    split_ifs
    · norm_num
    · exact le_min (by norm_num) he
  have hdt1 : dt ≤ 1 / 10 := by
    rw [hdt2]
    split_ifs
    · norm_num
    · exact min_le_left _ _
  have hx0 : 0 ≤ (g.accumulator + dt) * 60 := by positivity
  have hfl0 : 0 ≤ ⌊(g.accumulator + dt) * 60⌋ := Int.floor_nonneg.mpr hx0
  have hn1 : ((⌊(g.accumulator + dt) * 60⌋.toNat : ℕ) : ℤ) = ⌊(g.accumulator + dt) * 60⌋ :=
    Int.toNat_of_nonneg hfl0
  have hfuel : ⌊(g.accumulator + dt) / FIXED_STEP⌋.toNat = ⌊(g.accumulator + dt) * 60⌋.toNat := by
    have : (g.accumulator + dt) / FIXED_STEP = (g.accumulator + dt) * 60 := by
      rw [hF]
      ring
    rw [this]
  rw [hfuel] at hr
  generalize hnn : ⌊(g.accumulator + dt) * 60⌋.toNat = n at hr hn1
  have hnq : ((n : ℤ) : ℚ) = (n : ℚ) := Int.cast_natCast n
  have hle : (n : ℚ) ≤ (g.accumulator + dt) * 60 := by
    rw [← hnq, hn1]
    exact Int.floor_le _
  have hlt : (g.accumulator + dt) * 60 < (n : ℚ) + 1 := by
    rw [← hnq, hn1]
    exact Int.lt_floor_add_one _
  have hn6 : n ≤ 6 := by
    have : (n : ℚ) < 7 := by linarith
    exact_mod_cast Nat.lt_succ_iff.mp (by exact_mod_cast this)
  refine ⟨dt, fps, fc, n, hdt2, hn1, hn6, fun hrun => ?_, hn⟩
  have hacc : (n : ℚ) * FIXED_STEP ≤
      ({ g with
        lastFrame := timestamp
        fps := fps
        fpsCounter := fc
        accumulator := g.accumulator + dt } : RunnerGame).accumulator := by
    dsimp only
    rw [hF]
    linarith
  have hrest : ({ g with
        lastFrame := timestamp
        fps := fps
        fpsCounter := fc
        accumulator := g.accumulator + dt } : RunnerGame).accumulator
      - (n : ℚ) * FIXED_STEP < FIXED_STEP := by
    dsimp only
    rw [hF]
    linarith
  have hloop := (hr hrun).trans (drain_eq_fixedSteps M n _ k hacc)
  have hfin : (loop M timestamp g k).1.accumulator = g.accumulator + dt - (n : ℚ) * FIXED_STEP := by
    rw [hloop, fixedSteps_accumulator]
  refine ⟨hloop, fun m => ?_, ?_, ?_, ?_⟩
  · rw [drain_add M n m _ k hacc hrest]
    exact (hr hrun).symm
  · rw [hfin, hF]
    linarith
  · rw [hfin, hF]
    linarith
  · rw [hfin, hF]
    ring

/-- C15, at `hitState` and the frame `loop(40)`: 0.04 s have passed, the
accumulator is 0, and the frame leaves an accumulator below 1/60. -/
theorem loop_fixed_steps_witness :
    (40 - hitState.lastFrame) / 1000 = 1 / 25 ∧ (0 : ℚ) ≤ 1 / 25 ∧
    0 ≤ hitState.accumulator ∧ hitState.accumulator < 1 / 60 ∧
    (loop exampleMath 40 hitState 0).1.accumulator < 1 / 60 := by
  have hlast : hitState.lastFrame = 0 := rfl
  have hacc : hitState.accumulator = 0 := rfl
  have h1 : (40 - hitState.lastFrame) / 1000 = 1 / 25 := by
    rw [hlast]
    norm_num
  have h2 : (0 : ℚ) ≤ 1 / 25 := by norm_num
  have h3 : 0 ≤ hitState.accumulator := by rw [hacc]
  have h4 : hitState.accumulator < 1 / 60 := by
    rw [hacc]
    norm_num
  obtain ⟨dt, fps, fc, n, -, -, -, hrun, -⟩ :=
    loop_fixed_steps exampleMath 40 (1 / 25) hitState 0 h1 h2 h3 h4
  exact ⟨h1, h2, h3, h4, (hrun rfl).2.2.2.1⟩

/-- C16: from the state `restart` leaves (with `baseSpeed` 380 and `maxSpeed`
860, as in every reachable state), after `n ≤ 4800` calls of `update(1/60)` the
speed is `380 + n / 10` and the distance `(380 * n + n * (n + 1) / 20) / 60`,
whatever `Math.random()` returns; after 480 calls the speed is 428, the
distance 3232.4 and, when no token is held, the score 404. -/
theorem fresh_run_speed_distance (M : JsMath) (g : RunnerGame) (k n : Nat)
    (hb : g.baseSpeed = 380) (hm : g.maxSpeed = 860) (hn : n ≤ 4800) :
    (ticks M (1 / 60) n (restart g) k).1.speed = 380 + (n : ℚ) / 10 ∧
    (ticks M (1 / 60) n (restart g) k).1.distance =
      (380 * (n : ℚ) + (n : ℚ) * ((n : ℚ) + 1) / 20) / 60 ∧
    (ticks M (1 / 60) 480 (restart g) k).1.speed = 428 ∧
    (ticks M (1 / 60) 480 (restart g) k).1.distance = 16162 / 5 ∧
    ((ticks M (1 / 60) 480 (restart g) k).1.tokens = 0 →
      (ticks M (1 / 60) 480 (restart g) k).1.score = 404) := by
  obtain ⟨-, h2, h3, -⟩ := ticks_restart M g k n hb hm hn
  obtain ⟨-, s2, s3, -⟩ := ticks_restart M g k 480 hb hm (by norm_num)
  obtain ⟨-, -, -, t4⟩ := ticks_restart M g k 479 hb hm (by norm_num)
  have hd : (ticks M (1 / 60) 480 (restart g) k).1.distance = 16162 / 5 := by
    rw [s3]
    norm_num
  refine ⟨h2, h3, ?_, hd, fun hz => ?_⟩
  · rw [s2]
    norm_num
  · have hsc := ticks_score M (1 / 60) 479 (restart g) k t4 hz
    rw [hsc, hd]
    have hfl : (⌊(16162 / 5 : ℚ) / 8⌋ : ℤ) = 404 := by
      rw [Int.floor_eq_iff]
      norm_num
    rw [hfl]
    norm_num

/-- C16, from the constructor's state: its `baseSpeed` is 380 and its `maxSpeed`
860, and 480 ticks after a restart the speed is 428. -/
theorem fresh_run_speed_distance_witness :
    (construct 0).baseSpeed = 380 ∧ (construct 0).maxSpeed = 860 ∧ 480 ≤ 4800 ∧
    (ticks exampleMath (1 / 60) 480 (restart (construct 0)) 0).1.speed = 428 :=
  ⟨rfl, rfl, by norm_num,
    (fresh_run_speed_distance exampleMath (construct 0) 0 480 rfl rfl (by norm_num)).2.2.1⟩

end NeonRunner
